import Mathlib

/-!
Verification of the liturgical-calendar core (crates/calendar-core) against its
specification.

Shallow embedding conventions:

* `chrono::NaiveDate` is modeled as its day number in the proleptic Gregorian
  calendar, a `Nat` with day 0 = 0001-01-01.  Date comparison, date ± `Duration::days`,
  and `BTreeMap<NaiveDate, _>` key order all coincide with the `Nat` order and
  `Nat` arithmetic on day numbers.  `NaiveDate::from_ymd_opt` is `mkDate?` /
  `mkDate`, `.weekday().num_days_from_sunday()` is `numDaysFromSunday`
  (day 0, 0001-01-01, is a Monday), and `.year()` is `yearOf` (the unique year
  whose day range contains the day number, which is what chrono stores).
* Rust `i32` arithmetic in the computus stays non-negative for the years
  considered (year ≥ 1), so it is modeled with `Nat` arithmetic; Rust `/` and `%`
  on non-negative values agree with `Nat./` and `Nat.%`.
* `BTreeMap` values built by `entry().or_default().push` are modeled as the list
  of (key, value) insertions in program order; a key's `Vec` is the sublist of
  values pushed at that key, in order.
* Rust's stable `sort_by` is modeled by a stable insertion sort (`sortStable`);
  a stable sort by a total preorder is unique, so this is the same function.
-/

namespace LitCal

/-! ## Gregorian date model (chrono `NaiveDate`) -/

/-- Gregorian leap-year rule. -/
def isLeap (y : Nat) : Bool := y % 4 == 0 && (y % 100 != 0 || y % 400 == 0)

/-- Days in a month of a given year. -/
def daysInMonth (y m : Nat) : Nat :=
  if m = 2 then (if isLeap y then 29 else 28)
  else if m = 4 ∨ m = 6 ∨ m = 9 ∨ m = 11 then 30
  else 31

/-- Cumulative days before the given month (1-based) in a year. -/
def daysBeforeMonth (leap : Bool) (m : Nat) : Nat :=
  let l : Nat := if leap then 1 else 0
  match m with
  | 1 => 0 | 2 => 31 | 3 => 59 + l | 4 => 90 + l | 5 => 120 + l | 6 => 151 + l
  | 7 => 181 + l | 8 => 212 + l | 9 => 243 + l | 10 => 273 + l | 11 => 304 + l
  | _ => 334 + l

/-- Days from 0001-01-01 (day 0) to Jan 1 of year `y` (for `y ≥ 1`). -/
def daysBeforeYear (y : Nat) : Nat :=
  365 * (y - 1) + (y - 1) / 4 + (y - 1) / 400 - (y - 1) / 100

/-- Day number of the date `y-m-d`. -/
def mkDate (y m d : Nat) : Nat := daysBeforeYear y + daysBeforeMonth (isLeap y) m + (d - 1)

/-- `NaiveDate::from_ymd_opt`: `some` day number iff the y-m-d triple is valid. -/
def mkDate? (y m d : Nat) : Option Nat :=
  if 1 ≤ m ∧ m ≤ 12 ∧ 1 ≤ d ∧ d ≤ daysInMonth y m then some (mkDate y m d) else none

/-- chrono `Weekday::num_days_from_sunday`: Sunday = 0, …, Saturday = 6.
    Day 0 (0001-01-01) is a Monday. -/
def numDaysFromSunday (n : Nat) : Nat := (n + 1) % 7

/-- chrono `NaiveDate::year()`: the unique year whose day range contains `n`,
    computed by a one-step-correctable estimate. -/
def yearOf (n : Nat) : Nat :=
  let y := 400 * n / 146097 + 1
  if n < daysBeforeYear (y + 1) then y else y + 1

/-- Month and day-of-month of a day number (used only for `%m-%d` formatting). -/
def monthDayOf (n : Nat) : Nat × Nat :=
  let y := yearOf n
  let doy := n - daysBeforeYear y
  let leap := isLeap y
  if doy < daysBeforeMonth leap 2 then (1, doy + 1)
  else if doy < daysBeforeMonth leap 3 then (2, doy - daysBeforeMonth leap 2 + 1)
  else if doy < daysBeforeMonth leap 4 then (3, doy - daysBeforeMonth leap 3 + 1)
  else if doy < daysBeforeMonth leap 5 then (4, doy - daysBeforeMonth leap 4 + 1)
  else if doy < daysBeforeMonth leap 6 then (5, doy - daysBeforeMonth leap 5 + 1)
  else if doy < daysBeforeMonth leap 7 then (6, doy - daysBeforeMonth leap 6 + 1)
  else if doy < daysBeforeMonth leap 8 then (7, doy - daysBeforeMonth leap 7 + 1)
  else if doy < daysBeforeMonth leap 9 then (8, doy - daysBeforeMonth leap 8 + 1)
  else if doy < daysBeforeMonth leap 10 then (9, doy - daysBeforeMonth leap 9 + 1)
  else if doy < daysBeforeMonth leap 11 then (10, doy - daysBeforeMonth leap 10 + 1)
  else if doy < daysBeforeMonth leap 12 then (11, doy - daysBeforeMonth leap 11 + 1)
  else (12, doy - daysBeforeMonth leap 12 + 1)

/-- Zero-padded two-digit rendering, as in chrono format `%m` / `%d`. -/
def pad2 (n : Nat) : String := if n < 10 then "0" ++ Nat.repr n else Nat.repr n

/-- chrono `date.format("%m-%d")`. -/
def fmtMMDD (n : Nat) : String := pad2 (monthDayOf n).1 ++ "-" ++ pad2 (monthDayOf n).2

/-- The list of day numbers from `lo` to `hi` inclusive: the
    `while date <= hi { …; date += 1 day }` iteration space. -/
def dateRange (lo hi : Nat) : List Nat := (List.range (hi + 1 - lo)).map (lo + ·)

/-! ## Computus (computus.rs) -/

/-- The value `h + l - 7 * m + 114` of the Meeus/Jones/Butcher computus in
    `easter` (computus.rs lines 7-18); `month` and `day` are its `/ 31` and
    `% 31 + 1`.  For `year ≥ 0` every intermediate value of the Rust `i32`
    program is non-negative, so `Nat` arithmetic agrees with it. -/
def easterT (year : Nat) : Nat :=
  let a := year % 19
  let b := year / 100
  let c := year % 100
  let d := b / 4
  let e := b % 4
  let f := (b + 8) / 25
  let g := (b - f + 1) / 3
  let h := (19 * a + b - d - g + 15) % 30
  let i := c / 4
  let k := c % 4
  let l := (32 + 2 * e + 2 * i - h - k) % 7
  let m := (a + 11 * h + 22 * l) / 451
  h + l - 7 * m + 114

/-- `easter`'s month component (computus.rs line 19). -/
def easterMonth (year : Nat) : Nat := easterT year / 31

/-- `easter`'s day component (computus.rs line 20). -/
def easterDay (year : Nat) : Nat := easterT year % 31 + 1

/-- `pub fn easter(year) -> NaiveDate` as a day number. -/
def easter (year : Nat) : Nat := mkDate year (easterMonth year) (easterDay year)

/-- `MoveableFeasts` (types.rs lines 254-272), dates as day numbers. -/
structure MoveableFeasts where
  easter : Nat
  septuagesima : Nat
  ash_wednesday : Nat
  passion_sunday : Nat
  palm_sunday : Nat
  holy_thursday : Nat
  good_friday : Nat
  holy_saturday : Nat
  ascension : Nat
  pentecost : Nat
  corpus_christi : Nat
  sacred_heart : Nat
  christ_the_king : Nat
  advent_1 : Nat
  ember_days : List Nat
  rogation_days : List Nat
deriving DecidableEq

/-- `pub fn moveable_feasts(year) -> MoveableFeasts` (computus.rs lines 29-127). -/
def moveable_feasts (year : Nat) : MoveableFeasts :=
  let easter_date := easter year
  let septuagesima := easter_date - 63
  let ash_wednesday := easter_date - 46
  let passion_sunday := easter_date - 14
  let palm_sunday := easter_date - 7
  let holy_thursday := easter_date - 3
  let good_friday := easter_date - 2
  let holy_saturday := easter_date - 1
  let ascension := easter_date + 39
  let pentecost := easter_date + 49
  let corpus_christi := easter_date + 60
  let sacred_heart := corpus_christi + 8
  let oct31 := mkDate year 10 31
  let days_from_sunday := numDaysFromSunday oct31
  let christ_the_king := oct31 - days_from_sunday
  let nov30 := mkDate year 11 30
  let days_from_sun := numDaysFromSunday nov30
  let advent_1 := if days_from_sun ≤ 3 then nov30 - days_from_sun
    else nov30 + (7 - days_from_sun)
  let first_sunday_of_lent := ash_wednesday + 4
  let lent_ember := [first_sunday_of_lent + 3, first_sunday_of_lent + 5,
    first_sunday_of_lent + 6]
  let pent_ember := [pentecost + 3, pentecost + 5, pentecost + 6]
  let sept1 := mkDate year 9 1
  let days_to_sun := (7 - numDaysFromSunday sept1) % 7
  let first_sunday_sept := sept1 + days_to_sun
  let third_sunday_sept := first_sunday_sept + 14
  let sept_ember := [third_sunday_sept + 3, third_sunday_sept + 5, third_sunday_sept + 6]
  let advent_3 := advent_1 + 14
  let advent_ember := [advent_3 + 3, advent_3 + 5, advent_3 + 6]
  let ember_days := lent_ember ++ pent_ember ++ sept_ember ++ advent_ember
  let rogation_days := [ascension - 3, ascension - 2, ascension - 1]
  { easter := easter_date, septuagesima, ash_wednesday, passion_sunday, palm_sunday,
    holy_thursday, good_friday, holy_saturday, ascension, pentecost, corpus_christi,
    sacred_heart, christ_the_king, advent_1, ember_days, rogation_days }

/-! ## Data types (types.rs) -/

/-- `LiturgicalSeason` (types.rs lines 22-33). -/
inductive LiturgicalSeason where
  | Advent | Christmas | AfterEpiphany | Septuagesima | Lent | Passiontide
  | HolyWeek | Easter | Ascensiontide | AfterPentecost
deriving DecidableEq

/-- `CelebrationRank` (types.rs lines 38-46). -/
inductive CelebrationRank where
  | ClassI | ClassII | ClassIII | ClassIV | Feria | FeriaPrivileged
deriving DecidableEq

/-- `CelebrationRank::precedence_value` (types.rs lines 50-59). -/
def CelebrationRank.precedence_value : CelebrationRank → Nat
  | .ClassI => 1
  | .ClassII => 2
  | .ClassIII => 3
  | .FeriaPrivileged => 4
  | .ClassIV => 5
  | .Feria => 6

/-- `CelebrationCategory` (types.rs lines 65-78). -/
inductive CelebrationCategory where
  | FeastOfLord | Solemnity | Feast | Memorial | OptionalMemorial | Feria | Vigil
  | WithinOctave | OctaveDay | RogationDay | EmberDay | Sunday
deriving DecidableEq

/-- `LiturgicalColor` (types.rs lines 83-91). -/
inductive LiturgicalColor where
  | White | Red | Green | Violet | Rose | Black | Gold
deriving DecidableEq

/-- `Celebration` (types.rs lines 95-104). -/
structure Celebration where
  id : String
  title : String
  title_vernacular : Option String
  rank : CelebrationRank
  category : CelebrationCategory
  color : LiturgicalColor
  precedence : Nat
deriving DecidableEq

/-- `Celebration::new` (types.rs lines 107-125). -/
def Celebration.new (id title title_en : String) (rank : CelebrationRank)
    (category : CelebrationCategory) (color : LiturgicalColor) (precedence : Nat) :
    Celebration :=
  { id, title, title_vernacular := some title_en, rank, category, color, precedence }

/-- `season_id` (types.rs lines 276-289). -/
def season_id : LiturgicalSeason → String
  | .Advent => "advent"
  | .Christmas => "christmas"
  | .AfterEpiphany => "after-epiphany"
  | .Septuagesima => "septuagesima"
  | .Lent => "lent"
  | .Passiontide => "passiontide"
  | .HolyWeek => "holy-week"
  | .Easter => "easter"
  | .Ascensiontide => "ascensiontide"
  | .AfterPentecost => "after-pentecost"

/-- `season_name` (types.rs lines 291-304). -/
def season_name : LiturgicalSeason → String
  | .Advent => "Advent"
  | .Christmas => "Christmas"
  | .AfterEpiphany => "the Time after Epiphany"
  | .Septuagesima => "Septuagesima"
  | .Lent => "Lent"
  | .Passiontide => "Passiontide"
  | .HolyWeek => "Holy Week"
  | .Easter => "Easter"
  | .Ascensiontide => "Ascensiontide"
  | .AfterPentecost => "the Time after Pentecost"

/-- `ordinal` (types.rs lines 306-313). -/
def ordinal (n : Nat) : String :=
  match n with
  | 1 => "1st"
  | 2 => "2nd"
  | 3 => "3rd"
  | _ => Nat.repr n ++ "th"

/-- `format!("{:?}", weekday)` on a chrono `Weekday`, keyed by
    `num_days_from_sunday` (0 = Sunday). -/
def weekdayDebug (w : Nat) : String :=
  match w with
  | 0 => "Sun" | 1 => "Mon" | 2 => "Tue" | 3 => "Wed"
  | 4 => "Thu" | 5 => "Fri" | _ => "Sat"

/-- `format!("{:?}", weekday).to_lowercase()`. -/
def weekdayDebugLower (w : Nat) : String :=
  match w with
  | 0 => "sun" | 1 => "mon" | 2 => "tue" | 3 => "wed"
  | 4 => "thu" | 5 => "fri" | _ => "sat"

/-- `Celebration::feria` (types.rs lines 127-155); `day` is the weekday as
    `num_days_from_sunday`. -/
def Celebration.feria (season : LiturgicalSeason) (week : Nat) (day : Nat) :
    Celebration :=
  let p : LiturgicalColor × CelebrationRank × Nat :=
    match season with
    | .Advent => (.Violet, .FeriaPrivileged, 8)
    | .Lent => (.Violet, .FeriaPrivileged, 8)
    | .Passiontide => (.Violet, .FeriaPrivileged, 8)
    | .HolyWeek => (.Violet, .ClassI, 3)
    | .Christmas => (.White, .Feria, 11)
    | .AfterEpiphany => (.White, .Feria, 11)
    | .Septuagesima => (.Violet, .Feria, 11)
    | .Easter => (.White, .Feria, 11)
    | .Ascensiontide => (.White, .Feria, 11)
    | .AfterPentecost => (.Green, .Feria, 11)
  let day_name := weekdayDebug day
  let id := "feria-" ++ season_id season ++ "-week-" ++ Nat.repr week ++ "-" ++
    weekdayDebugLower day
  let title := "Feria " ++ day_name ++ " of " ++ season_name season ++ " Week " ++
    Nat.repr week
  { id, title, title_vernacular := some title, rank := p.2.1,
    category := .Feria, color := p.1, precedence := p.2.2 }

/-- `Celebration::sunday` (types.rs lines 157-219). -/
def Celebration.sunday (season : LiturgicalSeason) (week : Nat) : Celebration :=
  let p : LiturgicalColor × CelebrationRank × Nat :=
    match season with
    | .Advent =>
      if week = 1 then (.Violet, .ClassI, 2)
      else if week = 3 then (.Rose, .ClassI, 6)
      else (.Violet, .ClassI, 6)
    | .Christmas => (.White, .ClassII, 6)
    | .AfterEpiphany => (.White, .ClassII, 6)
    | .Septuagesima => (.Violet, .ClassII, 6)
    | .Lent =>
      if week = 1 then (.Violet, .ClassI, 2)
      else if week = 4 then (.Rose, .ClassI, 6)
      else (.Violet, .ClassI, 6)
    | .Passiontide => (.Violet, .ClassI, 2)
    | .HolyWeek => (.Violet, .ClassI, 2)
    | .Easter =>
      if week = 1 then (.White, .ClassI, 1)
      else (.White, .ClassII, 6)
    | .Ascensiontide => (.White, .ClassII, 6)
    | .AfterPentecost => (.Green, .ClassII, 6)
  let id := "sunday-" ++ season_id season ++ "-" ++ Nat.repr week
  let title := ordinal week ++ " Sunday of " ++ season_name season
  { id, title, title_vernacular := some title, rank := p.2.1,
    category := .Sunday, color := p.1, precedence := p.2.2 }

/-- `Readings` (types.rs lines 242-251). -/
structure Readings where
  epistle : Option String
  gospel : Option String
  old_testament : Option String
  gradual : Option String
deriving DecidableEq

/-- `LiturgicalDay` (types.rs lines 224-238); the date is a day number and
    `week` is the `u8` as a `Nat` (weeks never exceed 255). -/
structure LiturgicalDay where
  date : Nat
  season : LiturgicalSeason
  week : Nat
  day_of_week : String
  celebration : Celebration
  commemorations : List Celebration
  color : LiturgicalColor
  readings : Option Readings
  notes : Option String
deriving DecidableEq

/-! ## Season classifier (temporal.rs) -/

/-- `TemporalEntry` (temporal.rs lines 9-12). -/
structure TemporalEntry where
  season : LiturgicalSeason
  week : Nat
deriving DecidableEq

/-- `weekday_name` (temporal.rs lines 388-398), keyed by `num_days_from_sunday`. -/
def weekday_name (w : Nat) : String :=
  match w with
  | 1 => "Monday" | 2 => "Tuesday" | 3 => "Wednesday" | 4 => "Thursday"
  | 5 => "Friday" | 6 => "Saturday" | _ => "Sunday"

/-- `classify_special` (temporal.rs lines 139-386): the fixed-priority chain of
    special-case predicates, first match wins. -/
def classify_special (date : Nat) (_year : Nat) (mf : MoveableFeasts) :
    Option Celebration :=
  if date = mf.easter then
    some (Celebration.new "easter-sunday" "Dominica Resurrectionis" "Easter Sunday"
      .ClassI .Solemnity .White 1)
  else if mf.easter < date ∧ date < mf.easter + 7 then
    some (Celebration.new ("easter-octave-" ++ Nat.repr (date - mf.easter))
      "Infra Octavam Paschae"
      (weekday_name (numDaysFromSunday date) ++ " within the Octave of Easter")
      .ClassI .WithinOctave .White 1)
  else if date = mf.easter + 7 then
    some (Celebration.new "low-sunday" "Dominica in Albis"
      "Low Sunday (Octave Day of Easter)" .ClassI .OctaveDay .White 1)
  else if date = mf.ash_wednesday then
    some (Celebration.new "ash-wednesday" "Feria IV Cinerum" "Ash Wednesday"
      .ClassI .Feria .Violet 3)
  else if date = mf.palm_sunday then
    some (Celebration.new "palm-sunday" "Dominica in Palmis" "Palm Sunday"
      .ClassI .Sunday .Violet 2)
  else if date = mf.holy_thursday then
    some (Celebration.new "holy-thursday" "Feria V in Cena Domini" "Holy Thursday"
      .ClassI .Solemnity .White 1)
  else if date = mf.good_friday then
    some (Celebration.new "good-friday" "Feria VI in Parasceve" "Good Friday"
      .ClassI .Solemnity .Black 1)
  else if date = mf.holy_saturday then
    some (Celebration.new "holy-saturday" "Sabbato Sancto" "Holy Saturday"
      .ClassI .Solemnity .Violet 1)
  else if date = mf.ascension then
    some (Celebration.new "ascension" "In Ascensione Domini"
      "The Ascension of Our Lord" .ClassI .FeastOfLord .White 1)
  else if date = mf.pentecost then
    some (Celebration.new "pentecost" "Dominica Pentecostes" "Pentecost Sunday"
      .ClassI .Solemnity .Red 1)
  else if mf.pentecost < date ∧ date < mf.pentecost + 7 then
    some (Celebration.new ("pentecost-octave-" ++ Nat.repr (date - mf.pentecost))
      "Infra Octavam Pentecostes"
      (weekday_name (numDaysFromSunday date) ++ " within the Octave of Pentecost")
      .ClassI .WithinOctave .Red 1)
  else if date = mf.corpus_christi then
    some (Celebration.new "corpus-christi" "Ss.mi Corporis Christi" "Corpus Christi"
      .ClassI .FeastOfLord .White 1)
  else if date = mf.sacred_heart then
    some (Celebration.new "sacred-heart" "Ss.mi Cordis Jesu"
      "The Most Sacred Heart of Jesus" .ClassI .FeastOfLord .White 4)
  else if date = mf.christ_the_king then
    some (Celebration.new "christ-the-king" "D.N. Jesu Christi Regis"
      "Our Lord Jesus Christ the King" .ClassI .FeastOfLord .White 4)
  else if date ∈ mf.ember_days then
    some (Celebration.new ("ember-" ++ fmtMMDD date) "Feria Quatuor Temporum"
      ("Ember " ++ weekday_name (numDaysFromSunday date))
      .FeriaPrivileged .EmberDay .Violet 8)
  else if date ∈ mf.rogation_days then
    some (Celebration.new ("rogation-" ++ fmtMMDD date) "Feria Rogationum"
      ("Rogation " ++ weekday_name (numDaysFromSunday date))
      .ClassIV .RogationDay .Violet 11)
  else if numDaysFromSunday date = 0 ∧ mf.pentecost + 7 ≤ date ∧
      date < mf.advent_1 ∧ mf.advent_1 ≤ date + 7 then
    some (Celebration.new "last-sunday-after-pentecost"
      "Dominica Ultima post Pentecosten" "Last Sunday after Pentecost"
      .ClassI .Sunday .Green 2)
  else if date = mf.septuagesima then
    some (Celebration.sunday .Septuagesima 1)
  else if date = mf.septuagesima + 7 then
    some (Celebration.sunday .Septuagesima 2)
  else if date = mf.septuagesima + 14 then
    some (Celebration.sunday .Septuagesima 3)
  else if date = mf.passion_sunday then
    some (Celebration.sunday .Passiontide 1)
  else
    none

/-- `classify_date` (temporal.rs lines 39-137): the nine-season interval chain
    plus the special lookup. -/
def classify_date (date : Nat) (year : Nat) (mf : MoveableFeasts)
    (_prev_mf : MoveableFeasts) : TemporalEntry × Option Celebration :=
  let epiphany := mkDate year 1 6
  let christmas := mkDate year 12 25
  let special := classify_special date year mf
  let entry : TemporalEntry :=
    if date < epiphany then
      { season := .Christmas, week := 1 }
    else if epiphany ≤ date ∧ date < mf.septuagesima then
      { season := .AfterEpiphany, week := (date - epiphany) / 7 + 1 }
    else if mf.septuagesima ≤ date ∧ date < mf.ash_wednesday then
      { season := .Septuagesima, week := (date - mf.septuagesima) / 7 + 1 }
    else if mf.ash_wednesday ≤ date ∧ date < mf.passion_sunday then
      let first_sunday_of_lent := mf.ash_wednesday + 4
      if date < first_sunday_of_lent then
        { season := .Lent, week := 0 }
      else
        { season := .Lent, week := (date - first_sunday_of_lent) / 7 + 1 }
    else if mf.passion_sunday ≤ date ∧ date < mf.palm_sunday then
      { season := .Passiontide, week := 1 }
    else if mf.palm_sunday ≤ date ∧ date < mf.easter then
      { season := .HolyWeek, week := 1 }
    else if mf.easter ≤ date ∧ date < mf.ascension then
      { season := .Easter, week := (date - mf.easter) / 7 + 1 }
    else if mf.ascension ≤ date ∧ date ≤ mf.pentecost then
      { season := .Ascensiontide, week := 1 }
    else if mf.pentecost < date ∧ date < mf.advent_1 then
      { season := .AfterPentecost, week := (date - mf.pentecost) / 7 + 1 }
    else if mf.advent_1 ≤ date ∧ date < christmas then
      { season := .Advent, week := (date - mf.advent_1) / 7 + 1 }
    else
      { season := .Christmas, week := 1 }
  (entry, special)

/-- `build_temporal_cycle` (temporal.rs lines 16-37): one entry per civil date,
    in ascending `BTreeMap` key order. -/
def build_temporal_cycle (year : Nat) :
    List (Nat × TemporalEntry × Option Celebration) :=
  let mf := moveable_feasts year
  let prev_mf := moveable_feasts (year - 1)
  let jan1 := mkDate year 1 1
  let dec31 := mkDate year 12 31
  (dateRange jan1 dec31).map (fun date => (date, classify_date date year mf prev_mf))

/-! ## Sanctoral builder (sanctoral.rs) -/

/-- `FixedFeast` (sanctoral.rs lines 8-12). -/
structure FixedFeast where
  month : Nat
  day : Nat
  celebration : Celebration
deriving DecidableEq

/-- `fixed` (sanctoral.rs lines 179-195). -/
def fixed (month day : Nat) (id title title_en : String) (rank : CelebrationRank)
    (category : CelebrationCategory) (color : LiturgicalColor) (precedence : Nat) :
    FixedFeast :=
  { month, day, celebration := Celebration.new id title title_en rank category color precedence }

/-- `major_feasts` (sanctoral.rs lines 95-177). -/
def major_feasts : List FixedFeast :=
  [ fixed 1 1 "circumcision" "In Circumcisione Domini" "Circumcision of Our Lord" .ClassI .FeastOfLord .White 4,
    fixed 1 6 "epiphany" "In Epiphania Domini" "The Epiphany of Our Lord" .ClassI .FeastOfLord .White 4,
    fixed 1 25 "conversion-of-st-paul" "Conversio S. Pauli" "Conversion of St. Paul" .ClassIII .Feast .White 9,
    fixed 1 28 "st-thomas-aquinas" "S. Thomae de Aquino" "St. Thomas Aquinas" .ClassIII .Feast .White 9,
    fixed 2 2 "purification-bvm" "In Purificatione B.M.V." "Purification of the BVM (Candlemas)" .ClassII .FeastOfLord .White 5,
    fixed 2 22 "chair-of-st-peter" "Cathedra S. Petri" "Chair of St. Peter" .ClassII .Feast .White 7,
    fixed 2 24 "st-matthias" "S. Matthiae" "St. Matthias, Apostle" .ClassII .Feast .Red 7,
    fixed 3 7 "st-perpetua-felicity" "Ss. Perpetuae et Felicitatis" "Sts. Perpetua and Felicity, Martyrs" .ClassIII .Feast .Red 9,
    fixed 3 12 "st-gregory-great" "S. Gregorii I Papae" "St. Gregory the Great, Pope and Doctor" .ClassIII .Feast .White 9,
    fixed 3 17 "st-patrick" "S. Patricii" "St. Patrick, Bishop and Confessor" .ClassIII .Feast .White 9,
    fixed 3 19 "st-joseph" "S. Joseph Sponsi B.M.V." "St. Joseph, Spouse of the BVM" .ClassI .Solemnity .White 4,
    fixed 3 25 "annunciation" "In Annuntiatione B.M.V." "The Annunciation of the BVM" .ClassI .FeastOfLord .White 4,
    fixed 4 2 "st-francis-of-paola" "S. Francisci de Paula" "St. Francis of Paola, Confessor" .ClassIII .Feast .White 9,
    fixed 4 25 "st-mark" "S. Marci" "St. Mark, Evangelist" .ClassII .Feast .Red 7,
    fixed 5 1 "st-joseph-worker" "S. Joseph Opificis" "St. Joseph the Worker" .ClassI .Solemnity .White 4,
    fixed 5 3 "finding-holy-cross" "Inventio S. Crucis" "Finding of the Holy Cross" .ClassIII .Feast .Red 9,
    fixed 5 11 "ss-philip-james" "Ss. Philippi et Jacobi" "Sts. Philip and James, Apostles" .ClassII .Feast .Red 7,
    fixed 5 31 "queenship-of-mary" "B.M.V. Reginae" "Queenship of the BVM" .ClassII .Feast .White 7,
    fixed 6 24 "nativity-of-st-john-baptist" "In Nativitate S. Joannis Baptistae" "Nativity of St. John the Baptist" .ClassI .Solemnity .White 4,
    fixed 6 29 "ss-peter-paul" "Ss. Petri et Pauli" "Sts. Peter and Paul, Apostles" .ClassI .Solemnity .Red 4,
    fixed 7 2 "visitation-bvm" "Visitatio B.M.V." "Visitation of the BVM" .ClassII .Feast .White 7,
    fixed 7 25 "st-james-greater" "S. Jacobi Majoris" "St. James the Greater, Apostle" .ClassII .Feast .Red 7,
    fixed 7 26 "st-anne" "S. Annae Matris B.M.V." "St. Anne, Mother of the BVM" .ClassII .Feast .White 7,
    fixed 8 6 "transfiguration" "In Transfiguratione Domini" "The Transfiguration of Our Lord" .ClassII .FeastOfLord .White 5,
    fixed 8 10 "st-lawrence" "S. Laurentii" "St. Lawrence, Martyr" .ClassII .Feast .Red 7,
    fixed 8 15 "assumption-bvm" "In Assumptione B.M.V." "The Assumption of the BVM" .ClassI .Solemnity .White 4,
    fixed 8 22 "immaculate-heart-of-mary" "Immaculati Cordis B.M.V." "Immaculate Heart of Mary" .ClassII .Feast .White 7,
    fixed 8 24 "st-bartholomew" "S. Bartholomaei" "St. Bartholomew, Apostle" .ClassII .Feast .Red 7,
    fixed 8 28 "st-augustine" "S. Augustini" "St. Augustine, Bishop and Doctor" .ClassIII .Feast .White 9,
    fixed 8 29 "beheading-john-baptist" "In Decollatione S. Joannis Baptistae" "Beheading of St. John the Baptist" .ClassIII .Feast .Red 9,
    fixed 9 8 "nativity-bvm" "In Nativitate B.M.V." "Nativity of the BVM" .ClassII .Feast .White 7,
    fixed 9 14 "exaltation-holy-cross" "In Exaltatione S. Crucis" "Exaltation of the Holy Cross" .ClassII .FeastOfLord .Red 5,
    fixed 9 15 "seven-sorrows-bvm" "Septem Dolorum B.M.V." "Seven Sorrows of the BVM" .ClassII .Feast .White 7,
    fixed 9 21 "st-matthew" "S. Matthaei" "St. Matthew, Apostle and Evangelist" .ClassII .Feast .Red 7,
    fixed 9 29 "st-michael" "Dedicatio S. Michaelis Archangeli" "St. Michael the Archangel" .ClassI .Solemnity .White 4,
    fixed 10 7 "holy-rosary" "B.M.V. a Rosario" "Our Lady of the Rosary" .ClassII .Feast .White 7,
    fixed 10 11 "divine-motherhood-bvm" "Maternitatis B.M.V." "Divine Motherhood of the BVM" .ClassII .Feast .White 7,
    fixed 10 18 "st-luke" "S. Lucae" "St. Luke, Evangelist" .ClassII .Feast .Red 7,
    fixed 10 28 "ss-simon-jude" "Ss. Simonis et Judae" "Sts. Simon and Jude, Apostles" .ClassII .Feast .Red 7,
    fixed 11 1 "all-saints" "Omnium Sanctorum" "All Saints" .ClassI .Solemnity .White 4,
    fixed 11 2 "all-souls" "In Commemoratione Omnium Fidelium Defunctorum" "All Souls Day" .ClassI .Solemnity .Black 4,
    fixed 11 9 "dedication-lateran" "Dedicatio Archibasilicae Ss.mi Salvatoris" "Dedication of the Lateran Basilica" .ClassII .Feast .White 7,
    fixed 11 21 "presentation-bvm" "Praesentatio B.M.V." "Presentation of the BVM" .ClassIII .Feast .White 9,
    fixed 11 30 "st-andrew" "S. Andreae" "St. Andrew, Apostle" .ClassII .Feast .Red 7,
    fixed 11 11 "st-martin-of-tours" "S. Martini Episcopi" "St. Martin of Tours, Bishop" .ClassIII .Feast .White 9,
    fixed 11 22 "st-cecilia" "S. Caeciliae" "St. Cecilia, Virgin and Martyr" .ClassIII .Feast .Red 9,
    fixed 11 25 "st-catherine-of-alexandria" "S. Catharinae" "St. Catherine of Alexandria, Virgin and Martyr" .ClassIII .Feast .Red 9,
    fixed 12 8 "immaculate-conception" "In Conceptione Immaculata B.M.V." "Immaculate Conception of the BVM" .ClassI .Solemnity .White 4,
    fixed 12 21 "st-thomas-apostle" "S. Thomae Apostoli" "St. Thomas, Apostle" .ClassII .Feast .Red 7,
    fixed 12 25 "christmas" "In Nativitate Domini" "The Nativity of Our Lord" .ClassI .Solemnity .White 1,
    fixed 12 26 "st-stephen" "S. Stephani Protomartyris" "St. Stephen, Protomartyr" .ClassII .Feast .Red 5,
    fixed 12 27 "st-john-evangelist" "S. Joannis Apostoli et Evangelistae" "St. John, Apostle and Evangelist" .ClassII .Feast .White 5,
    fixed 12 28 "holy-innocents" "Ss. Innocentium" "Holy Innocents" .ClassII .Feast .Red 5,
    fixed 12 31 "st-sylvester" "S. Silvestri I" "St. Sylvester I, Pope" .ClassIII .Feast .White 9 ]

/-- The `while d <= end` scan for a Sunday, one day at a time, used by
    `find_sunday_between` and by the Holy Family loop (sanctoral.rs 54-64, 84-91). -/
def findSundayFrom (d endD : Nat) : Option Nat :=
  if d ≤ endD then
    (if numDaysFromSunday d = 0 then some d else findSundayFrom (d + 1) endD)
  else none
termination_by endD + 1 - d

/-- `find_sunday_between` (sanctoral.rs lines 81-92). -/
def find_sunday_between (year m1 d1 m2 d2 : Nat) : Option Nat := do
  let start ← mkDate? year m1 d1
  let endD ← mkDate? year m2 d2
  findSundayFrom start endD

/-- The date the Holy Family feast resolves to (sanctoral.rs lines 49-65). -/
def holyFamilyDate (year : Nat) : Nat :=
  let dec25_prev := mkDate (year - 1) 12 25
  if numDaysFromSunday dec25_prev = 0 then mkDate (year - 1) 12 30
  else
    (findSundayFrom (mkDate (year - 1) 12 26) (mkDate year 1 1)).getD
      (mkDate (year - 1) 12 30)

/-- `build_sanctoral_cycle` (sanctoral.rs lines 17-79).  The `BTreeMap` of
    `Vec`s is modeled as the list of (date, celebration) pushes in program
    order; `sanctoralLookup` recovers a date's `Vec`. -/
def build_sanctoral_cycle (year : Nat) : List (Nat × Celebration) :=
  let fixed_entries := major_feasts.filterMap (fun f =>
    (mkDate? year f.month f.day).map (fun date => (date, f.celebration)))
  let holy_name_date := (find_sunday_between year 1 2 1 5).getD (mkDate year 1 2)
  let holy_name := [(holy_name_date, Celebration.new "holy-name-of-jesus"
    "Ss.mi Nominis Jesu" "The Most Holy Name of Jesus" .ClassII .FeastOfLord .White 5)]
  let holy_family_date := holyFamilyDate year
  let holy_family :=
    if yearOf holy_family_date = year then
      [(holy_family_date, Celebration.new "holy-family" "Sanctae Familiae"
        "The Holy Family" .ClassI .FeastOfLord .White 4)]
    else []
  fixed_entries ++ holy_name ++ holy_family

/-- `map.get(date).cloned().unwrap_or_default()`: the `Vec` pushed at a key, in
    push order. -/
def sanctoralLookup (entries : List (Nat × Celebration)) (date : Nat) :
    List Celebration :=
  (entries.filter (fun p => p.1 == date)).map (fun p => p.2)

/-! ## Precedence resolver (precedence.rs) -/

/-- One insertion step of a stable insertion sort: `x` goes after every element
    `y` with `le y x` (so after equal elements inserted earlier). -/
def insertStable (le : Celebration → Celebration → Bool) (x : Celebration) :
    List Celebration → List Celebration
  | [] => [x]
  | y :: ys => if le y x then y :: insertStable le x ys else x :: y :: ys

/-- Rust's stable `sort_by`, modeled as a stable insertion sort; a stable sort
    by a total preorder is a unique function, so this is the same sort. -/
def sortStable (le : Celebration → Celebration → Bool) (l : List Celebration) :
    List Celebration :=
  l.foldl (fun acc x => insertStable le x acc) []

/-- `a ≤ b` under the comparator of precedence.rs lines 29-32:
    `a.precedence.cmp(&b.precedence).then(rank value cmp) != Greater`. -/
def cmpLe (a b : Celebration) : Bool :=
  Nat.blt a.precedence b.precedence ||
    (a.precedence == b.precedence &&
      Nat.ble a.rank.precedence_value b.rank.precedence_value)

/-- `resolve_precedence` (precedence.rs lines 18-63).  `all` has the temporal
    celebration first, then the sanctoral ones; `all[0]` of the sorted vector is
    the winner (the list is a permutation of a cons, hence non-empty, so the
    `headD` default is never used); the fold mirrors the Rust `match` over
    `all[1..]`. -/
def resolve_precedence (temporal_celebration : Celebration)
    (sanctoral_celebrations : List Celebration) :
    Celebration × List Celebration :=
  let all := temporal_celebration :: sanctoral_celebrations
  let sorted := sortStable cmpLe all
  let winner := sorted.headD temporal_celebration
  let commemorations := sorted.tail.foldl (fun acc c =>
    match c.rank with
    | .ClassI => acc ++ [c]
    | .ClassII => acc ++ [c]
    | .ClassIII => acc ++ [c]
    | .FeriaPrivileged => acc ++ [c]
    | .ClassIV => acc ++ [c]
    | .Feria => acc) []
  (winner, commemorations)

/-! ## Readings and notes tables (readings.rs) -/

/-- `get_readings` (readings.rs lines 5-218). -/
def get_readings (celebration_id : String) : Option Readings :=
  if celebration_id = "christmas" then
    some { epistle := some "Titus 2:11-15", gospel := some "Luke 2:1-14",
           old_testament := none, gradual := some "Ps 97:3-4, 2" }
  else if celebration_id = "circumcision" then
    some { epistle := some "Titus 2:11-15", gospel := some "Luke 2:21",
           old_testament := none, gradual := some "Ps 97:3-4" }
  else if celebration_id = "epiphany" then
    some { epistle := some "Isaias 60:1-6", gospel := some "Matt 2:1-12",
           old_testament := none, gradual := some "Ps 71:10-11" }
  else if celebration_id = "holy-family" then
    some { epistle := some "Col 3:12-17", gospel := some "Luke 2:42-52",
           old_testament := none, gradual := some "Ps 26:4" }
  else if celebration_id = "holy-name-of-jesus" then
    some { epistle := some "Acts 4:8-12", gospel := some "Luke 2:21",
           old_testament := none, gradual := some "Ps 105:47" }
  else if celebration_id = "ash-wednesday" then
    some { epistle := some "Joel 2:12-19", gospel := some "Matt 6:16-21",
           old_testament := none, gradual := some "Ps 56:2" }
  else if celebration_id = "palm-sunday" then
    some { epistle := some "Phil 2:5-11", gospel := some "Matt 26:36–27:60 (Passion)",
           old_testament := none, gradual := some "Ps 21:2-3, 22" }
  else if celebration_id = "holy-thursday" then
    some { epistle := some "1 Cor 11:20-32", gospel := some "John 13:1-15",
           old_testament := none, gradual := some "Phil 2:8-9" }
  else if celebration_id = "good-friday" then
    some { epistle := some "Osee 6:1-6; Exod 12:1-11",
           gospel := some "John 18:1–19:42 (Passion)",
           old_testament := some "Isaias 52:13–53:12", gradual := some "Hab 3:2-3" }
  else if celebration_id = "holy-saturday" then
    some { epistle := some "Col 3:1-4", gospel := some "Matt 28:1-7",
           old_testament := some "Gen 1:1–2:2 (and Prophecies)", gradual := none }
  else if celebration_id = "easter-sunday" then
    some { epistle := some "1 Cor 5:7-8", gospel := some "Mark 16:1-7",
           old_testament := none,
           gradual := some "Ps 117:24, 1 (Sequence: Victimae Paschali Laudes)" }
  else if celebration_id = "low-sunday" then
    some { epistle := some "1 John 5:4-10", gospel := some "John 20:19-31",
           old_testament := none, gradual := some "Matt 28:7; John 20:26" }
  else if celebration_id = "ascension" then
    some { epistle := some "Acts 1:1-11", gospel := some "Mark 16:14-20",
           old_testament := none, gradual := some "Ps 46:6; Ps 67:18-19" }
  else if celebration_id = "pentecost" then
    some { epistle := some "Acts 2:1-11", gospel := some "John 14:23-31",
           old_testament := none,
           gradual := some "Ps 103:30 (Sequence: Veni Sancte Spiritus)" }
  else if celebration_id = "corpus-christi" then
    some { epistle := some "1 Cor 11:23-29", gospel := some "John 6:56-59",
           old_testament := none,
           gradual := some "Ps 144:15-16 (Sequence: Lauda Sion)" }
  else if celebration_id = "sacred-heart" then
    some { epistle := some "Eph 3:8-19", gospel := some "John 19:31-37",
           old_testament := none, gradual := some "Ps 24:8-9" }
  else if celebration_id = "christ-the-king" then
    some { epistle := some "Col 1:12-20", gospel := some "John 18:33-37",
           old_testament := none, gradual := some "Ps 71:8, 11" }
  else if celebration_id = "purification-bvm" then
    some { epistle := some "Mal 3:1-4", gospel := some "Luke 2:22-32",
           old_testament := none, gradual := some "Ps 47:10-11, 9" }
  else if celebration_id = "st-joseph" then
    some { epistle := some "Ecclus 45:1-6", gospel := some "Matt 1:18-21",
           old_testament := none, gradual := some "Ps 20:4-5" }
  else if celebration_id = "annunciation" then
    some { epistle := some "Isaias 7:10-15", gospel := some "Luke 1:26-38",
           old_testament := none, gradual := some "Ps 44:3, 5" }
  else if celebration_id = "nativity-of-st-john-baptist" then
    some { epistle := some "Isaias 49:1-3, 5-7", gospel := some "Luke 1:57-68",
           old_testament := none, gradual := some "Jer 1:5, 9" }
  else if celebration_id = "ss-peter-paul" then
    some { epistle := some "Acts 12:1-11", gospel := some "Matt 16:13-19",
           old_testament := none, gradual := some "Ps 44:17-18" }
  else if celebration_id = "transfiguration" then
    some { epistle := some "2 Peter 1:16-19", gospel := some "Matt 17:1-9",
           old_testament := none, gradual := some "Ps 44:3" }
  else if celebration_id = "assumption-bvm" then
    some { epistle := some "Judith 13:22-25; 15:10", gospel := some "Luke 1:41-50",
           old_testament := none, gradual := some "Ps 44:10, 12, 16" }
  else if celebration_id = "exaltation-holy-cross" then
    some { epistle := some "Phil 2:5-11", gospel := some "John 12:31-36",
           old_testament := none, gradual := some "Phil 2:8-9" }
  else if celebration_id = "st-michael" then
    some { epistle := some "Apoc 1:1-5", gospel := some "Matt 18:1-10",
           old_testament := none, gradual := some "Ps 102:20" }
  else if celebration_id = "all-saints" then
    some { epistle := some "Apoc 7:2-12", gospel := some "Matt 5:1-12",
           old_testament := none, gradual := some "Ps 33:10-11" }
  else if celebration_id = "all-souls" then
    some { epistle := some "1 Cor 15:51-57", gospel := some "John 5:25-29",
           old_testament := none, gradual := none }
  else if celebration_id = "immaculate-conception" then
    some { epistle := some "Prov 8:22-35", gospel := some "Luke 1:26-28",
           old_testament := none, gradual := some "Judith 15:10; 13:23" }
  else if celebration_id = "st-stephen" then
    some { epistle := some "Acts 6:8-10; 7:54-59", gospel := some "Matt 23:34-39",
           old_testament := none, gradual := some "Ps 118:23, 86, 23" }
  else if celebration_id = "st-john-evangelist" then
    some { epistle := some "Ecclus 15:1-6", gospel := some "John 21:19-24",
           old_testament := none, gradual := some "Ps 91:13-14" }
  else if celebration_id = "holy-innocents" then
    some { epistle := some "Apoc 14:1-5", gospel := some "Matt 2:13-18",
           old_testament := none, gradual := some "Ps 123:7-8" }
  else none

/-- `get_notes` (readings.rs lines 221-244). -/
def get_notes (celebration_id : String) : Option String :=
  if celebration_id = "ash-wednesday" then
    some "Blessing and imposition of ashes. Fast and abstinence."
  else if celebration_id = "palm-sunday" then
    some "Blessing of palms and procession before Mass."
  else if celebration_id = "holy-thursday" then
    some "Mass of the Lord\x27s Supper. Mandatum. Stripping of the altars. Repository."
  else if celebration_id = "good-friday" then
    some "Solemn liturgical action. Veneration of the Cross. Fast and abstinence. No Mass celebrated."
  else if celebration_id = "holy-saturday" then
    some "Easter Vigil: Blessing of the new fire, Paschal candle, baptismal water. First Mass of Easter."
  else if celebration_id = "easter-sunday" then
    some "Solemnity of solemnities. Sequence: Victimae Paschali Laudes."
  else if celebration_id = "pentecost" then
    some "Sequence: Veni Sancte Spiritus."
  else if celebration_id = "corpus-christi" then
    some "Sequence: Lauda Sion Salvatorem. Procession of the Blessed Sacrament."
  else if celebration_id = "purification-bvm" then
    some "Candlemas. Blessing of candles and procession."
  else if celebration_id = "all-souls" then
    some "Commemoration of All the Faithful Departed. Three Masses permitted for each priest."
  else if celebration_id = "christmas" then
    some "Solemnity of the Nativity. Three Masses: Midnight, Dawn, Day."
  else if celebration_id = "circumcision" then
    some "Octave Day of Christmas. Holy Day of Obligation."
  else if celebration_id = "epiphany" then
    some "Holy Day of Obligation. Blessing of water, chalk, and incense."
  else if celebration_id = "assumption-bvm" then
    some "Holy Day of Obligation."
  else if celebration_id = "all-saints" then
    some "Holy Day of Obligation."
  else if celebration_id = "immaculate-conception" then
    some "Holy Day of Obligation."
  else if celebration_id = "ascension" then
    some "Holy Day of Obligation."
  else if celebration_id = "st-joseph" then
    some "Holy Day of Obligation in many countries."
  else if celebration_id = "ss-peter-paul" then
    some "Holy Day of Obligation in many countries."
  else none

/-! ## Calendar orchestrator (calendar.rs) -/

/-- `Calendar` (calendar.rs lines 11-14); the `BTreeMap` is the date-ordered
    list of (date, `LiturgicalDay`) pairs. -/
structure Calendar where
  year : Nat
  days : List (Nat × LiturgicalDay)
deriving DecidableEq

/-- The per-date body of the `Calendar::new` loop (calendar.rs lines 25-57). -/
def buildDay (sanctoral : List (Nat × Celebration)) (date : Nat)
    (entry : TemporalEntry) (special_celebration : Option Celebration) :
    LiturgicalDay :=
  let temporal_celeb :=
    match special_celebration with
    | some special => special
    | none =>
      if numDaysFromSunday date = 0 then Celebration.sunday entry.season entry.week
      else Celebration.feria entry.season entry.week (numDaysFromSunday date)
  let sanctoral_celebs := sanctoralLookup sanctoral date
  let wc := resolve_precedence temporal_celeb sanctoral_celebs
  { date, season := entry.season, week := entry.week,
    day_of_week := weekdayDebug (numDaysFromSunday date),
    celebration := wc.1, commemorations := wc.2, color := wc.1.color,
    readings := get_readings wc.1.id, notes := get_notes wc.1.id }

/-- `Calendar::new` (calendar.rs lines 18-60). -/
def Calendar.new (year : Nat) : Calendar :=
  let temporal := build_temporal_cycle year
  let sanctoral := build_sanctoral_cycle year
  let days := temporal.map (fun p => (p.1, buildDay sanctoral p.1 p.2.1 p.2.2))
  { year, days }

/-- `Calendar::get` (calendar.rs lines 63-65). -/
def Calendar.get (c : Calendar) (date : Nat) : Option LiturgicalDay :=
  (c.days.find? (fun p => p.1 == date)).map (fun p => p.2)

/-! ## Date-model lemmas -/

theorem isLeap_iff (y : Nat) :
    isLeap y = true ↔ (y % 4 = 0 ∧ (y % 100 ≠ 0 ∨ y % 400 = 0)) := by
  simp [isLeap]

set_option maxHeartbeats 1600000 in
theorem daysBeforeYear_step (y : Nat) (hy : 1 ≤ y) :
    daysBeforeYear (y + 1) = daysBeforeYear y + (if isLeap y then 366 else 365) := by
  by_cases hL : isLeap y = true
  · rw [if_pos hL]; rw [isLeap_iff] at hL
    unfold daysBeforeYear
    rcases hL.2 with h | h
    · omega
    · omega
  · rw [if_neg hL]
    have hL' : ¬ (y % 4 = 0 ∧ (y % 100 ≠ 0 ∨ y % 400 = 0)) := fun hp => hL ((isLeap_iff y).2 hp)
    unfold daysBeforeYear
    omega

theorem daysBeforeYear_mono {a b : Nat} (h : a ≤ b) :
    daysBeforeYear a ≤ daysBeforeYear b := by
  have h4 : (a - 1) / 4 ≤ (b - 1) / 4 := Nat.div_le_div_right (by omega)
  have h400 : (a - 1) / 400 ≤ (b - 1) / 400 := Nat.div_le_div_right (by omega)
  have h100 : (b - 1) / 100 ≤ (a - 1) / 100 + (b - a) := by
    calc (b - 1) / 100 ≤ ((a - 1) + (b - a) * 100) / 100 :=
          Nat.div_le_div_right (by omega)
    _ = (a - 1) / 100 + (b - a) := by rw [Nat.add_mul_div_right _ _ (by omega)]
  unfold daysBeforeYear
  omega

theorem yearOf_est_low (n : Nat) : daysBeforeYear (400 * n / 146097 + 1) ≤ n := by
  unfold daysBeforeYear; omega

theorem yearOf_est_high (n : Nat) : n < daysBeforeYear (400 * n / 146097 + 1 + 2) := by
  unfold daysBeforeYear; omega

theorem yearOf_spec (n : Nat) :
    daysBeforeYear (yearOf n) ≤ n ∧ n < daysBeforeYear (yearOf n + 1) := by
  have h1 := yearOf_est_low n
  have h2 := yearOf_est_high n
  simp only [yearOf]
  split <;> constructor
  · exact h1
  · assumption
  · omega
  · exact h2

/-- `yearOf` is the unique year whose day range contains the day number. -/
theorem yearOf_eq_of_range (y n : Nat) (hy : 1 ≤ y)
    (hlow : daysBeforeYear y ≤ n) (hhigh : n < daysBeforeYear (y + 1)) :
    yearOf n = y := by
  have hspec := yearOf_spec n
  by_contra hne
  rcases Nat.lt_or_ge (yearOf n) y with hlt | hge
  · have hmono := daysBeforeYear_mono (show yearOf n + 1 ≤ y from hlt)
    omega
  · have hmono := daysBeforeYear_mono (show y + 1 ≤ yearOf n by omega)
    omega

/-- Jan 1 of year `y` is one week after Dec 25 of year `y - 1`. -/
theorem jan1_eq_dec25_prev_add (y : Nat) (hy : 2 ≤ y) :
    mkDate y 1 1 = mkDate (y - 1) 12 25 + 7 := by
  have hstep := daysBeforeYear_step (y - 1) (by omega)
  have hy1 : y - 1 + 1 = y := by omega
  rw [hy1] at hstep
  unfold mkDate daysBeforeMonth
  by_cases hL : isLeap (y - 1) = true <;> simp [hL] at hstep ⊢ <;> omega

/-- Dates of December of year `y - 1` lie in year `y - 1`. -/
theorem yearOf_dec_prev (y d : Nat) (hy : 2 ≤ y) (hd1 : 1 ≤ d) (hd2 : d ≤ 31) :
    yearOf (mkDate (y - 1) 12 d) = y - 1 := by
  have hstep := daysBeforeYear_step (y - 1) (by omega)
  refine yearOf_eq_of_range _ _ (by omega) ?_ ?_ <;>
    · unfold mkDate daysBeforeMonth
      by_cases hL : isLeap (y - 1) = true <;> simp [hL] at hstep ⊢ <;> omega

/-- Jan 1 of year `y` lies in year `y`. -/
theorem yearOf_jan1 (y : Nat) (hy : 1 ≤ y) : yearOf (mkDate y 1 1) = y := by
  have hstep := daysBeforeYear_step y hy
  refine yearOf_eq_of_range _ _ hy ?_ ?_ <;>
    · unfold mkDate daysBeforeMonth
      by_cases hL : isLeap y = true <;> simp [hL] at hstep ⊢ <;> omega

/-! ## Computus lemmas: for every year, Easter lands on a Sunday in
[Mar 22, Apr 25].  The congruence argument follows the structure of the
Meeus/Jones/Butcher computus: the `l` term is chosen so that the result is a
Sunday, and the `m` correction keeps the day inside the window. -/

theorem easterT_range (year : Nat) : 114 ≤ easterT year ∧ easterT year ≤ 148 := by
  simp only [easterT]
  omega

theorem easterT_struct (year : Nat) :
    ∃ h l m : Nat, h < 30 ∧
      l = (32 + 2 * (year / 100 % 4) + 2 * (year % 100 / 4) - h - year % 100 % 4) % 7 ∧
      7 * m ≤ h + l ∧
      easterT year = h + l - 7 * m + 114 := by
  refine ⟨(19 * (year % 19) + year / 100 - year / 100 / 4 -
      (year / 100 - (year / 100 + 8) / 25 + 1) / 3 + 15) % 30,
    (32 + 2 * (year / 100 % 4) + 2 * (year % 100 / 4) -
      (19 * (year % 19) + year / 100 - year / 100 / 4 -
        (year / 100 - (year / 100 + 8) / 25 + 1) / 3 + 15) % 30 - year % 100 % 4) % 7,
    (year % 19 + 11 * ((19 * (year % 19) + year / 100 - year / 100 / 4 -
        (year / 100 - (year / 100 + 8) / 25 + 1) / 3 + 15) % 30) +
      22 * ((32 + 2 * (year / 100 % 4) + 2 * (year % 100 / 4) -
        (19 * (year % 19) + year / 100 - year / 100 / 4 -
          (year / 100 - (year / 100 + 8) / 25 + 1) / 3 + 15) % 30 - year % 100 % 4) % 7)) / 451,
    Nat.mod_lt _ (by omega), rfl, by omega, by simp only [easterT]⟩

theorem computus_fin (b c h l m : Nat) (hh : h < 30)
    (hl : l = (32 + 2 * (b % 4) + 2 * (c / 4) - h - c % 4) % 7)
    (hm : 7 * m ≤ h + l) :
    (6 + 5 * b + b / 4 + c + c / 4 + (h + l - 7 * m + 114) - 33) % 7 = 0 := by
  omega

set_option maxHeartbeats 1600000 in
theorem leap_step (y LB : Nat) (hy : 1 ≤ y)
    (hLB : (LB = 1 ∧ y % 4 = 0 ∧ (y % 100 ≠ 0 ∨ y % 400 = 0)) ∨
           (LB = 0 ∧ ¬(y % 4 = 0 ∧ (y % 100 ≠ 0 ∨ y % 400 = 0)))) :
    (y - 1) + (y - 1) / 4 + (y - 1) / 400 - (y - 1) / 100 + LB =
    (y - 1) + y / 4 + y / 400 - y / 100 := by
  rcases hLB with ⟨hLB1, h4, h100⟩ | ⟨hLB0, hn⟩
  · rcases h100 with h100 | h400
    · omega
    · omega
  · omega

theorem computus_core (y h l m LB : Nat)
    (hy : 1 ≤ y)
    (hh : h < 30)
    (hl : l = (32 + 2 * (y / 100 % 4) + 2 * (y % 100 / 4) - h - y % 100 % 4) % 7)
    (hm : 7 * m ≤ h + l)
    (hLB : (LB = 1 ∧ y % 4 = 0 ∧ (y % 100 ≠ 0 ∨ y % 400 = 0)) ∨
           (LB = 0 ∧ ¬(y % 4 = 0 ∧ (y % 100 ≠ 0 ∨ y % 400 = 0)))) :
    (daysBeforeYear y + LB + (h + l - 7 * m + 114) - 34 + 1) % 7 = 0 := by
  have step1 : daysBeforeYear y + LB =
      364 * (y - 1) + ((y - 1) + (y - 1) / 4 + (y - 1) / 400 - (y - 1) / 100 + LB) := by
    unfold daysBeforeYear; omega
  rw [step1, leap_step y LB hy hLB]
  have step3 : ((y - 1) + y / 4 + y / 400 - y / 100) % 7 =
      (6 + 5 * (y / 100) + y / 100 / 4 + y % 100 + y % 100 / 4) % 7 := by
    have hq4 : y / 4 = 25 * (y / 100) + y % 100 / 4 := by omega
    have hq400 : y / 400 = y / 100 / 4 := by omega
    omega
  have fin := computus_fin (y / 100) (y % 100) h l m hh hl hm
  clear hl hLB hh step1
  omega

/-- The leap-bit disjunction used to feed `computus_core`. -/
theorem leapBit_cases (year : Nat) :
    ((if isLeap year = true then 1 else 0) = 1 ∧ year % 4 = 0 ∧
        (year % 100 ≠ 0 ∨ year % 400 = 0)) ∨
      ((if isLeap year = true then 1 else 0) = 0 ∧
        ¬(year % 4 = 0 ∧ (year % 100 ≠ 0 ∨ year % 400 = 0))) := by
  by_cases hL : isLeap year = true
  · exact Or.inl ⟨by rw [if_pos hL], (isLeap_iff year).1 hL⟩
  · exact Or.inr ⟨by rw [if_neg hL], fun hp => hL ((isLeap_iff year).2 hp)⟩

/-- Easter as an absolute offset into the year: the Mar-22..Apr-25 window
    becomes offsets 80..114 past the leap-adjusted Jan 1. -/
theorem easter_num (year : Nat) :
    easter year = daysBeforeYear year + (if isLeap year then 1 else 0) +
      easterT year - 34 := by
  have hrange := easterT_range year
  have h34 : easterT year / 31 = 3 ∨ easterT year / 31 = 4 := by omega
  unfold easter mkDate easterMonth easterDay
  rcases h34 with h34 | h34 <;> rw [h34] <;> simp only [daysBeforeMonth]
  · have hmod : easterT year % 31 = easterT year - 93 := by omega
    rw [hmod]; omega
  · have hmod : easterT year % 31 = easterT year - 124 := by omega
    rw [hmod]; omega

/-- For every year ≥ 1, Easter falls on a Sunday. -/
theorem easter_is_sunday (year : Nat) (h1 : 1 ≤ year) :
    numDaysFromSunday (easter year) = 0 := by
  obtain ⟨h, l, m, hh, hl, hm, ht⟩ := easterT_struct year
  have core := computus_core year h l m (if isLeap year = true then 1 else 0) h1 hh hl hm
    (leapBit_cases year)
  rw [← ht] at core
  unfold numDaysFromSunday
  rw [easter_num year]
  exact core

/-- For every year ≥ 1, Easter lies in [Mar 22, Apr 25]. -/
theorem easter_range (year : Nat) :
    mkDate year 3 22 ≤ easter year ∧ easter year ≤ mkDate year 4 25 := by
  have hrange := easterT_range year
  rw [easter_num year]
  simp only [mkDate, daysBeforeMonth]
  by_cases hL : isLeap year = true <;> simp only [hL] <;> constructor <;> simp <;> omega

/-- Easter as an offset from Jan 1 of its year: between +80 and +115 days. -/
theorem easter_bounds (year : Nat) :
    daysBeforeYear year + 80 ≤ easter year ∧
      easter year ≤ daysBeforeYear year + 115 := by
  have hrange := easterT_range year
  have hnum := easter_num year
  by_cases hL : isLeap year = true <;> simp [hL] at hnum <;> omega

/-! ## List-range, search and sort lemmas -/

theorem mem_dateRange {lo hi d : Nat} : d ∈ dateRange lo hi ↔ lo ≤ d ∧ d ≤ hi := by
  simp only [dateRange, List.mem_map, List.mem_range]
  constructor
  · rintro ⟨a, ha, rfl⟩; omega
  · rintro ⟨h1, h2⟩; exact ⟨d - lo, by omega, by omega⟩

theorem nodup_dateRange (lo hi : Nat) : (dateRange lo hi).Nodup :=
  (List.nodup_range _).map fun a b h => by omega

theorem length_dateRange (lo hi : Nat) : (dateRange lo hi).length = hi + 1 - lo := by
  simp [dateRange]

theorem findSundayFrom_sound (d endD r : Nat)
    (h : findSundayFrom d endD = some r) :
    numDaysFromSunday r = 0 ∧ d ≤ r ∧ r ≤ endD := by
  by_cases hde : d ≤ endD
  · rw [findSundayFrom, if_pos hde] at h
    by_cases hs : numDaysFromSunday d = 0
    · rw [if_pos hs] at h
      cases h
      exact ⟨hs, Nat.le_refl _, hde⟩
    · rw [if_neg hs] at h
      have ih := findSundayFrom_sound (d + 1) endD r h
      exact ⟨ih.1, by omega, ih.2.2⟩
  · rw [findSundayFrom, if_neg hde] at h
    cases h
termination_by endD + 1 - d
decreasing_by omega

theorem insertStable_perm (le : Celebration → Celebration → Bool)
    (x : Celebration) (l : List Celebration) :
    List.Perm (insertStable le x l) (x :: l) := by
  induction l with
  | nil => exact List.Perm.refl _
  | cons y ys ih =>
    unfold insertStable
    split
    · exact (ih.cons y).trans (List.Perm.swap x y ys)
    · exact List.Perm.refl _

theorem sortStable_aux_perm (le : Celebration → Celebration → Bool)
    (l acc : List Celebration) :
    List.Perm (l.foldl (fun acc x => insertStable le x acc) acc) (acc ++ l) := by
  induction l generalizing acc with
  | nil => simp
  | cons x xs ih =>
    simp only [List.foldl_cons]
    refine (ih _).trans ?_
    refine (List.Perm.append_right xs (insertStable_perm le x acc)).trans ?_
    exact List.perm_middle.symm.trans (by simp)

theorem sortStable_perm (le : Celebration → Celebration → Bool)
    (l : List Celebration) : List.Perm (sortStable le l) l := by
  simpa using sortStable_aux_perm le l []

theorem insertStable_pairwise (le : Celebration → Celebration → Bool)
    (htotal : ∀ a b, le a b || le b a)
    (htrans : ∀ a b c, le a b = true → le b c = true → le a c = true)
    (x : Celebration) (l : List Celebration)
    (h : l.Pairwise (fun a b => le a b = true)) :
    (insertStable le x l).Pairwise (fun a b => le a b = true) := by
  induction l with
  | nil => simp [insertStable]
  | cons y ys ih =>
    unfold insertStable
    rcases List.pairwise_cons.1 h with ⟨hy, hys⟩
    split
    · rename_i hle
      refine List.pairwise_cons.2 ⟨?_, ih hys⟩
      intro z hz
      rcases List.mem_cons.1 ((insertStable_perm le x ys).mem_iff.1 hz) with rfl | hz
      · exact hle
      · exact hy z hz
    · rename_i hnle
      have hxy : le x y = true := by
        have h2 := htotal y x
        simp only [Bool.or_eq_true] at h2
        rcases h2 with h2 | h2
        · exact absurd h2 hnle
        · exact h2
      refine List.pairwise_cons.2 ⟨?_, h⟩
      intro z hz
      rcases List.mem_cons.1 hz with rfl | hz
      · exact hxy
      · exact htrans x y z hxy (hy z hz)

theorem sortStable_pairwise (le : Celebration → Celebration → Bool)
    (htotal : ∀ a b, le a b || le b a)
    (htrans : ∀ a b c, le a b = true → le b c = true → le a c = true)
    (l : List Celebration) :
    (sortStable le l).Pairwise (fun a b => le a b = true) := by
  suffices h : ∀ acc : List Celebration, acc.Pairwise (fun a b => le a b = true) →
      (l.foldl (fun acc x => insertStable le x acc) acc).Pairwise
        (fun a b => le a b = true) by
    exact h [] (by simp)
  induction l with
  | nil => intro acc h; simpa using h
  | cons x xs ih =>
    intro acc hacc
    exact ih _ (insertStable_pairwise le htotal htrans x acc hacc)

/-- Stability at the head: if the first element is `le` every later one
    (ties included), the stable sort keeps it first. -/
theorem sortStable_cons_min (le : Celebration → Celebration → Bool)
    (t : Celebration) (ss : List Celebration) (h : ∀ x ∈ ss, le t x = true) :
    ∃ rest, sortStable le (t :: ss) = t :: rest := by
  suffices haux : ∀ (l acc : List Celebration), (∀ x ∈ l, le t x = true) →
      ∃ rest, l.foldl (fun acc x => insertStable le x acc) (t :: acc) = t :: rest by
    have h0 : sortStable le (t :: ss) =
        ss.foldl (fun acc x => insertStable le x acc) (t :: []) := by
      simp [sortStable, insertStable]
    rw [h0]
    exact haux ss [] h
  intro l
  induction l with
  | nil => intro acc _; exact ⟨acc, rfl⟩
  | cons x xs ih =>
    intro acc hx
    simp only [List.foldl_cons]
    have hlex : le t x = true := hx x (by simp)
    have hins : insertStable le x (t :: acc) = t :: insertStable le x acc := by
      simp only [insertStable]; rw [if_pos hlex]
    rw [hins]
    exact ih _ (fun z hz => hx z (by simp [hz]))

theorem cmpLe_total (a b : Celebration) : cmpLe a b || cmpLe b a := by
  simp only [cmpLe, Nat.blt_eq, Nat.ble_eq, Bool.or_eq_true, Bool.and_eq_true,
    beq_iff_eq, decide_eq_true_eq]
  omega

theorem cmpLe_trans (a b c : Celebration) (h1 : cmpLe a b = true)
    (h2 : cmpLe b c = true) : cmpLe a c = true := by
  simp only [cmpLe, Nat.blt_eq, Nat.ble_eq, Bool.or_eq_true, Bool.and_eq_true,
    beq_iff_eq, decide_eq_true_eq] at h1 h2 ⊢
  omega

/-- The winner of `resolve_precedence` is a member of the merged list and is
    minimal for the sort comparator. -/
theorem resolve_winner_min (t : Celebration) (ss : List Celebration) :
    (resolve_precedence t ss).1 ∈ t :: ss ∧
      ∀ x ∈ t :: ss, cmpLe (resolve_precedence t ss).1 x = true := by
  have hperm := sortStable_perm cmpLe (t :: ss)
  have hpw := sortStable_pairwise cmpLe cmpLe_total cmpLe_trans (t :: ss)
  rcases hsort : sortStable cmpLe (t :: ss) with _ | ⟨w, rest⟩
  · rw [hsort] at hperm
    exact absurd hperm.length_eq (by simp)
  · rw [hsort] at hperm hpw
    have hw : (resolve_precedence t ss).1 = w := by
      simp [resolve_precedence, hsort]
    rw [hw]
    constructor
    · exact hperm.mem_iff.1 (by simp)
    · intro x hx
      rcases List.mem_cons.1 (hperm.mem_iff.2 hx) with rfl | hxr
      · simp [cmpLe]
      · exact (List.pairwise_cons.1 hpw).1 x hxr

/-- The commemorations fold over a losing list is the `rank ≠ Feria` filter. -/
theorem comm_fold_eq_filter (l : List Celebration) :
    (l.foldl (fun acc c =>
      match c.rank with
      | .ClassI => acc ++ [c]
      | .ClassII => acc ++ [c]
      | .ClassIII => acc ++ [c]
      | .FeriaPrivileged => acc ++ [c]
      | .ClassIV => acc ++ [c]
      | .Feria => acc) []) =
    l.filter (fun c => !(c.rank == CelebrationRank.Feria)) := by
  suffices haux : ∀ acc : List Celebration,
      (l.foldl (fun acc c =>
        match c.rank with
        | .ClassI => acc ++ [c]
        | .ClassII => acc ++ [c]
        | .ClassIII => acc ++ [c]
        | .FeriaPrivileged => acc ++ [c]
        | .ClassIV => acc ++ [c]
        | .Feria => acc) acc) =
      acc ++ l.filter (fun c => !(c.rank == CelebrationRank.Feria)) by
    simpa using haux []
  induction l with
  | nil => intro acc; simp
  | cons c cs ih =>
    intro acc
    simp only [List.foldl_cons, List.filter_cons]
    rcases hr : c.rank <;> simp [hr, ih]

/-! ## Moveable-feast field equations -/

theorem mf_fields (y : Nat) :
    moveable_feasts y =
      { easter := easter y
        septuagesima := easter y - 63
        ash_wednesday := easter y - 46
        passion_sunday := easter y - 14
        palm_sunday := easter y - 7
        holy_thursday := easter y - 3
        good_friday := easter y - 2
        holy_saturday := easter y - 1
        ascension := easter y + 39
        pentecost := easter y + 49
        corpus_christi := easter y + 60
        sacred_heart := easter y + 60 + 8
        christ_the_king := mkDate y 10 31 - numDaysFromSunday (mkDate y 10 31)
        advent_1 :=
          if numDaysFromSunday (mkDate y 11 30) ≤ 3 then
            mkDate y 11 30 - numDaysFromSunday (mkDate y 11 30)
          else mkDate y 11 30 + (7 - numDaysFromSunday (mkDate y 11 30))
        ember_days :=
          [easter y - 46 + 4 + 3, easter y - 46 + 4 + 5, easter y - 46 + 4 + 6,
           easter y + 49 + 3, easter y + 49 + 5, easter y + 49 + 6,
           mkDate y 9 1 + (7 - numDaysFromSunday (mkDate y 9 1)) % 7 + 14 + 3,
           mkDate y 9 1 + (7 - numDaysFromSunday (mkDate y 9 1)) % 7 + 14 + 5,
           mkDate y 9 1 + (7 - numDaysFromSunday (mkDate y 9 1)) % 7 + 14 + 6,
           (if numDaysFromSunday (mkDate y 11 30) ≤ 3 then
              mkDate y 11 30 - numDaysFromSunday (mkDate y 11 30)
            else mkDate y 11 30 + (7 - numDaysFromSunday (mkDate y 11 30))) + 14 + 3,
           (if numDaysFromSunday (mkDate y 11 30) ≤ 3 then
              mkDate y 11 30 - numDaysFromSunday (mkDate y 11 30)
            else mkDate y 11 30 + (7 - numDaysFromSunday (mkDate y 11 30))) + 14 + 5,
           (if numDaysFromSunday (mkDate y 11 30) ≤ 3 then
              mkDate y 11 30 - numDaysFromSunday (mkDate y 11 30)
            else mkDate y 11 30 + (7 - numDaysFromSunday (mkDate y 11 30))) + 14 + 6]
        rogation_days :=
          [easter y + 39 - 3, easter y + 39 - 2, easter y + 39 - 1] } := rfl

/-! ## Claim theorems -/

/-- C8: `moveable_feasts(year)` places every Easter-anchored feast at its exact
    signed-day offset from Easter (Septuagesima −63, Ash Wednesday −46, Passion
    Sunday −14, Palm Sunday −7, Holy Thursday −3, Good Friday −2, Holy
    Saturday −1, Ascension +39, Pentecost +49, Corpus Christi +60,
    Sacred Heart +68), and `rogation_days` is exactly
    [Ascension−3, Ascension−2, Ascension−1] in that order.  The `+ k = easter`
    phrasing makes the negative offsets exact (no truncation): Easter is always
    at least 80 days into its year, so the subtractions never underflow. -/
theorem moveable_feasts_offsets (year : Nat) :
    63 ≤ (moveable_feasts year).easter ∧
    (moveable_feasts year).easter = easter year ∧
    (moveable_feasts year).septuagesima + 63 = (moveable_feasts year).easter ∧
    (moveable_feasts year).ash_wednesday + 46 = (moveable_feasts year).easter ∧
    (moveable_feasts year).passion_sunday + 14 = (moveable_feasts year).easter ∧
    (moveable_feasts year).palm_sunday + 7 = (moveable_feasts year).easter ∧
    (moveable_feasts year).holy_thursday + 3 = (moveable_feasts year).easter ∧
    (moveable_feasts year).good_friday + 2 = (moveable_feasts year).easter ∧
    (moveable_feasts year).holy_saturday + 1 = (moveable_feasts year).easter ∧
    (moveable_feasts year).ascension = (moveable_feasts year).easter + 39 ∧
    (moveable_feasts year).pentecost = (moveable_feasts year).easter + 49 ∧
    (moveable_feasts year).corpus_christi = (moveable_feasts year).easter + 60 ∧
    (moveable_feasts year).sacred_heart = (moveable_feasts year).easter + 68 ∧
    (moveable_feasts year).rogation_days =
      [(moveable_feasts year).ascension - 3, (moveable_feasts year).ascension - 2,
       (moveable_feasts year).ascension - 1] := by
  have hb := easter_bounds year
  rw [mf_fields]
  dsimp only
  refine ⟨by omega, rfl, by omega, by omega, by omega, by omega, by omega, by omega,
    by omega, rfl, rfl, rfl, by omega, rfl⟩

/-- C4: for every year in [1900, 2100], `easter(year)` falls on a Sunday and
    lies within [Mar 22, Apr 25] of that year.  (Both facts are proved here for
    every year ≥ 1, which covers the claimed range.) -/
theorem easter_sunday_and_range (year : Nat) (h1 : 1900 ≤ year) (h2 : year ≤ 2100) :
    numDaysFromSunday (easter year) = 0 ∧
      mkDate year 3 22 ≤ easter year ∧ easter year ≤ mkDate year 4 25 :=
  ⟨easter_is_sunday year (by omega), easter_range year⟩

/-- Witness for C4 at year 2026 (Easter 2026 is Apr 5, a Sunday). -/
theorem easter_sunday_and_range_witness :
    (1900 ≤ 2026 ∧ 2026 ≤ 2100) ∧
      (numDaysFromSunday (easter 2026) = 0 ∧
        mkDate 2026 3 22 ≤ easter 2026 ∧ easter 2026 ≤ mkDate 2026 4 25) :=
  ⟨by decide, easter_sunday_and_range 2026 (by decide) (by decide)⟩

/-- C7: for every year, Christ the King is the nearest Sunday on or before
    Oct 31 (hence a Sunday in [Oct 25, Oct 31]), and Advent-1 is the unique
    Sunday in [Nov 27, Dec 3], chosen as the Sunday on or before Nov 30 when
    Nov 30 is at most 3 days after a Sunday and as the following Sunday
    otherwise. -/
theorem christ_the_king_and_advent1 (year : Nat) :
    (numDaysFromSunday ((moveable_feasts year).christ_the_king) = 0 ∧
      mkDate year 10 25 ≤ (moveable_feasts year).christ_the_king ∧
      (moveable_feasts year).christ_the_king ≤ mkDate year 10 31 ∧
      (∀ s, numDaysFromSunday s = 0 → s ≤ mkDate year 10 31 →
        s ≤ (moveable_feasts year).christ_the_king)) ∧
    (numDaysFromSunday ((moveable_feasts year).advent_1) = 0 ∧
      mkDate year 11 27 ≤ (moveable_feasts year).advent_1 ∧
      (moveable_feasts year).advent_1 ≤ mkDate year 12 3 ∧
      (∀ s, numDaysFromSunday s = 0 → mkDate year 11 27 ≤ s →
        s ≤ mkDate year 12 3 → s = (moveable_feasts year).advent_1) ∧
      (numDaysFromSunday (mkDate year 11 30) ≤ 3 →
        (moveable_feasts year).advent_1 =
          mkDate year 11 30 - numDaysFromSunday (mkDate year 11 30)) ∧
      (3 < numDaysFromSunday (mkDate year 11 30) →
        (moveable_feasts year).advent_1 =
          mkDate year 11 30 + (7 - numDaysFromSunday (mkDate year 11 30)))) := by
  rw [mf_fields]
  dsimp only
  simp only [mkDate, daysBeforeMonth, numDaysFromSunday]
  generalize hLB : (if isLeap year = true then (1 : Nat) else 0) = LB
  have hLB1 : LB ≤ 1 := by subst hLB; split <;> omega
  constructor
  · exact ⟨by omega, by omega, by omega, fun s h1 h2 => by omega⟩
  · refine ⟨?_, ?_, ?_, fun s h1 h2 h3 => ?_, fun h => ?_, fun h => ?_⟩ <;>
      split <;> omega

/-- The spec's rank ordinal table (§4.4): ClassI=1 < ClassII=2 < ClassIII=3 <
    FeriaPrivileged=4 < ClassIV=5 < Feria=6.  Stated from the spec's words, to
    be compared with the code's `CelebrationRank::precedence_value`. -/
def specRankOrdinal : CelebrationRank → Nat
  | .ClassI => 1
  | .ClassII => 2
  | .ClassIII => 3
  | .FeriaPrivileged => 4
  | .ClassIV => 5
  | .Feria => 6

/-- The spec's sort relation (§4.4): ascending by the pair
    (precedence number, rank ordinal). -/
def specSortLe (a b : Celebration) : Bool :=
  decide (a.precedence < b.precedence ∨
    (a.precedence = b.precedence ∧ specRankOrdinal a.rank ≤ specRankOrdinal b.rank))

/-- The spec's ordinal table is the code's `precedence_value`, and the spec's
    lexicographic key order is the code's sort comparator. -/
theorem specSortLe_eq_cmpLe : specSortLe = cmpLe := by
  funext a b
  have hr : specRankOrdinal a.rank = a.rank.precedence_value := by
    cases a.rank <;> rfl
  have hr2 : specRankOrdinal b.rank = b.rank.precedence_value := by
    cases b.rank <;> rfl
  rw [Bool.eq_iff_iff]
  simp only [specSortLe, cmpLe, decide_eq_true_eq, Bool.or_eq_true, Bool.and_eq_true,
    Nat.blt_eq, Nat.ble_eq, beq_iff_eq, hr, hr2]

/-- C5: the winner of `resolve_precedence` is the first element of the merged
    list (temporal first, then the sanctoral list) stably sorted ascending by
    (precedence number, rank ordinal) with the spec's ordinal values; in
    particular, whenever the temporal celebration's key is at most every
    sanctoral key — including exact ties on both components — the temporal
    celebration wins. -/
theorem resolve_precedence_winner (t : Celebration) (ss : List Celebration) :
    (resolve_precedence t ss).1 = (sortStable specSortLe (t :: ss)).headD t ∧
      ((∀ s ∈ ss, specSortLe t s = true) → (resolve_precedence t ss).1 = t) := by
  rw [specSortLe_eq_cmpLe]
  refine ⟨rfl, fun h => ?_⟩
  obtain ⟨rest, hrest⟩ := sortStable_cons_min cmpLe t ss h
  simp [resolve_precedence, hrest]

/-- Witness for C5 at a concrete tie: a temporal and a sanctoral celebration
    with equal precedence 7 and equal rank ClassII; the temporal one wins. -/
theorem resolve_precedence_winner_witness :
    (resolve_precedence
        (Celebration.new "temporal-t" "T" "T" .ClassII .Sunday .Green 7)
        [Celebration.new "sanctoral-s" "S" "S" .ClassII .Feast .Red 7]).1 =
      Celebration.new "temporal-t" "T" "T" .ClassII .Sunday .Green 7 :=
  (resolve_precedence_winner
    (Celebration.new "temporal-t" "T" "T" .ClassII .Sunday .Green 7)
    [Celebration.new "sanctoral-s" "S" "S" .ClassII .Feast .Red 7]).2 (by decide)

/-- C6: the commemorations returned by `resolve_precedence` are exactly the
    losing (non-head) celebrations of the sorted merged list whose rank is not
    `Feria`, in the sorted order; every `Feria`-ranked loser is dropped. -/
theorem resolve_precedence_commemorations (t : Celebration) (ss : List Celebration) :
    (resolve_precedence t ss).2 =
      ((sortStable specSortLe (t :: ss)).tail).filter
        (fun c => !(c.rank == CelebrationRank.Feria)) ∧
      ∀ c ∈ (resolve_precedence t ss).2, c.rank ≠ CelebrationRank.Feria := by
  rw [specSortLe_eq_cmpLe]
  have h1 : (resolve_precedence t ss).2 =
      ((sortStable cmpLe (t :: ss)).tail).filter
        (fun c => !(c.rank == CelebrationRank.Feria)) := by
    simp only [resolve_precedence]
    exact comm_fold_eq_filter _
  refine ⟨h1, fun c hc => ?_⟩
  rw [h1] at hc
  have := List.of_mem_filter hc
  simpa using this

/-- Witness for C6 at a concrete input: a Class I temporal winner, one Class
    III sanctoral loser commemorated, one Feria loser dropped. -/
theorem resolve_precedence_commemorations_witness :
    (resolve_precedence
        (Celebration.new "t" "T" "T" .ClassI .Solemnity .White 1)
        [Celebration.new "s1" "S" "S" .ClassIII .Feast .White 9,
         Celebration.new "s2" "S" "S" .Feria .Feria .Green 11]).2 =
      ((sortStable specSortLe
        (Celebration.new "t" "T" "T" .ClassI .Solemnity .White 1 ::
          [Celebration.new "s1" "S" "S" .ClassIII .Feast .White 9,
           Celebration.new "s2" "S" "S" .Feria .Feria .Green 11])).tail).filter
        (fun c => !(c.rank == CelebrationRank.Feria)) ∧
      ∀ c ∈ (resolve_precedence
        (Celebration.new "t" "T" "T" .ClassI .Solemnity .White 1)
        [Celebration.new "s1" "S" "S" .ClassIII .Feast .White 9,
         Celebration.new "s2" "S" "S" .Feria .Feria .Green 11]).2,
        c.rank ≠ CelebrationRank.Feria :=
  resolve_precedence_commemorations
    (Celebration.new "t" "T" "T" .ClassI .Solemnity .White 1)
    [Celebration.new "s1" "S" "S" .ClassIII .Feast .White 9,
     Celebration.new "s2" "S" "S" .Feria .Feria .Green 11]

/-- Witness for C7 at year 2026 (Christ the King is Oct 25, Advent-1 Nov 29). -/
theorem christ_the_king_and_advent1_witness :
    numDaysFromSunday ((moveable_feasts 2026).christ_the_king) = 0 ∧
      mkDate 2026 10 25 ≤ (moveable_feasts 2026).christ_the_king ∧
      (moveable_feasts 2026).christ_the_king ≤ mkDate 2026 10 31 ∧
      numDaysFromSunday ((moveable_feasts 2026).advent_1) = 0 :=
  ⟨(christ_the_king_and_advent1 2026).1.1, (christ_the_king_and_advent1 2026).1.2.1,
   (christ_the_king_and_advent1 2026).1.2.2.1, (christ_the_king_and_advent1 2026).2.1⟩

/-- C10: `Calendar::new(year)` is a pure, deterministic function of the year:
    two builds from the same year agree in every field of every
    `LiturgicalDay`.  In this embedding the builder is a function, and the
    source performs no I/O and reads no mutable state, so determinism holds by
    construction. -/
theorem calendar_new_deterministic (year : Nat) (c1 c2 : Calendar)
    (h1 : c1 = Calendar.new year) (h2 : c2 = Calendar.new year) :
    c1.days = c2.days ∧ c1 = c2 := by
  subst h1; subst h2; exact ⟨rfl, rfl⟩

/-- Witness for C10 at year 2026. -/
theorem calendar_new_deterministic_witness :
    (Calendar.new 2026).days = (Calendar.new 2026).days ∧
      Calendar.new 2026 = Calendar.new 2026 :=
  calendar_new_deterministic 2026 (Calendar.new 2026) (Calendar.new 2026) rfl rfl

/-- C1 fails on the code: on 2026-05-27 (the Wednesday after Pentecost,
    2026-05-24) both the Pentecost-octave predicate
    (`pentecost < date < pentecost + 7`) and the Ember-day predicate
    (`date ∈ ember_days`, the Whit Embers are Pentecost +3/+5/+6) match, and
    the first-match chain returns the octave celebration, silently dropping the
    Ember day. -/
theorem classify_special_overlap_2026 :
    ((moveable_feasts 2026).pentecost < mkDate 2026 5 27 ∧
      mkDate 2026 5 27 < (moveable_feasts 2026).pentecost + 7) ∧
    mkDate 2026 5 27 ∈ (moveable_feasts 2026).ember_days ∧
    (classify_special (mkDate 2026 5 27) 2026 (moveable_feasts 2026)).map
        Celebration.id = some "pentecost-octave-3" ∧
    (classify_special (mkDate 2026 5 27) 2026 (moveable_feasts 2026)).map
        Celebration.category = some CelebrationCategory.WithinOctave := by
  decide

/-! ## C2: the Holy Family guard never fires -/

/-- The resolved Holy Family date always lies in the prior civil year: Jan 1 of
    the target year is a Sunday exactly when Dec 25 of the prior year is (they
    are 7 days apart), and in that case the Dec-30 default applies instead. -/
theorem holyFamilyDate_year (y : Nat) (hy : 2 ≤ y) :
    yearOf (holyFamilyDate y) = y - 1 := by
  unfold holyFamilyDate
  by_cases hS : numDaysFromSunday (mkDate (y - 1) 12 25) = 0
  · rw [if_pos hS]
    exact yearOf_dec_prev y 30 hy (by omega) (by omega)
  · rw [if_neg hS]
    rcases hfind : findSundayFrom (mkDate (y - 1) 12 26) (mkDate y 1 1) with _ | r
    · simp only [Option.getD_none]
      exact yearOf_dec_prev y 30 hy (by omega) (by omega)
    · simp only [Option.getD_some]
      have hs := findSundayFrom_sound _ _ _ hfind
      have hj := jan1_eq_dec25_prev_add y hy
      have hne : r ≠ mkDate y 1 1 := by
        intro he
        apply hS
        have hr0 := hs.1
        rw [he, hj] at hr0
        unfold numDaysFromSunday at hr0 ⊢
        omega
      have hjan1 : mkDate y 1 1 = daysBeforeYear y := by
        unfold mkDate daysBeforeMonth
        simp
      have hlow : daysBeforeYear (y - 1) ≤ mkDate (y - 1) 12 26 := by
        unfold mkDate; omega
      have hstep : y - 1 + 1 = y := by omega
      refine yearOf_eq_of_range _ _ (by omega) (by omega) ?_
      rw [hstep]
      have h1 := hs.2.2
      omega

/-- Every fixed feast in the static table has an id other than "holy-family". -/
theorem major_feasts_no_holy_family :
    ∀ f ∈ major_feasts, f.celebration.id ≠ "holy-family" := by decide

/-- C2: for every year, the sanctoral cycle contains no entry with celebration
    id "holy-family": the resolved Holy Family date lies in the prior civil
    year in every case (Jan 1 of the target year is a Sunday exactly when
    Dec 25 of the prior year is, and that case takes the Dec 30 default), so
    the `holy_family_date.year() == year` guard never holds.  Stated for
    year ≥ 2 so that the prior civil year exists in the day-number model. -/
theorem build_sanctoral_cycle_no_holy_family (year : Nat) (hy : 2 ≤ year) :
    ∀ p ∈ build_sanctoral_cycle year, p.2.id ≠ "holy-family" := by
  intro p hp
  simp only [build_sanctoral_cycle] at hp
  have hguard : ¬ (yearOf (holyFamilyDate year) = year) := by
    rw [holyFamilyDate_year year hy]
    omega
  rw [if_neg hguard] at hp
  simp only [List.append_nil, List.mem_append, List.mem_filterMap,
    List.mem_singleton] at hp
  rcases hp with ⟨f, hf, hmap⟩ | hp
  · rcases Option.map_eq_some'.1 hmap with ⟨d, _, hpd⟩
    have hid := major_feasts_no_holy_family f hf
    rw [← hpd] at *
    exact hid
  · rw [hp]
    simp [Celebration.new]

/-- Witness for C2 at year 2026. -/
theorem build_sanctoral_cycle_no_holy_family_witness :
    (2 ≤ 2026) ∧ ∀ p ∈ build_sanctoral_cycle 2026, p.2.id ≠ "holy-family" :=
  ⟨by decide, build_sanctoral_cycle_no_holy_family 2026 (by decide)⟩

/-! ## C3: the temporal cycle tiles the civil year -/

/-- The eleven interval tests of `classify_date`'s season chain, in chain
    order; index 10 is the final `else` read as the interval [Dec 25, Dec 31]. -/
def seasonInterval (year i d : Nat) : Prop :=
  match i with
  | 0 => d < mkDate year 1 6
  | 1 => mkDate year 1 6 ≤ d ∧ d < (moveable_feasts year).septuagesima
  | 2 => (moveable_feasts year).septuagesima ≤ d ∧ d < (moveable_feasts year).ash_wednesday
  | 3 => (moveable_feasts year).ash_wednesday ≤ d ∧ d < (moveable_feasts year).passion_sunday
  | 4 => (moveable_feasts year).passion_sunday ≤ d ∧ d < (moveable_feasts year).palm_sunday
  | 5 => (moveable_feasts year).palm_sunday ≤ d ∧ d < (moveable_feasts year).easter
  | 6 => (moveable_feasts year).easter ≤ d ∧ d < (moveable_feasts year).ascension
  | 7 => (moveable_feasts year).ascension ≤ d ∧ d ≤ (moveable_feasts year).pentecost
  | 8 => (moveable_feasts year).pentecost < d ∧ d < (moveable_feasts year).advent_1
  | 9 => (moveable_feasts year).advent_1 ≤ d ∧ d < mkDate year 12 25
  | 10 => mkDate year 12 25 ≤ d
  | _ => False

/-- The season each interval is assigned by `classify_date`. -/
def seasonOfInterval (i : Nat) : LiturgicalSeason :=
  match i with
  | 0 => .Christmas
  | 1 => .AfterEpiphany
  | 2 => .Septuagesima
  | 3 => .Lent
  | 4 => .Passiontide
  | 5 => .HolyWeek
  | 6 => .Easter
  | 7 => .Ascensiontide
  | 8 => .AfterPentecost
  | 9 => .Advent
  | _ => .Christmas

/-- The half-open-interval endpoints of the chain: `seasonInterval year i d`
    means `seasonBound year i ≤ d < seasonBound year (i+1)` (given that `d`
    lies in the civil year). -/
def seasonBound (year i : Nat) : Nat :=
  match i with
  | 0 => mkDate year 1 1
  | 1 => mkDate year 1 6
  | 2 => (moveable_feasts year).septuagesima
  | 3 => (moveable_feasts year).ash_wednesday
  | 4 => (moveable_feasts year).passion_sunday
  | 5 => (moveable_feasts year).palm_sunday
  | 6 => (moveable_feasts year).easter
  | 7 => (moveable_feasts year).ascension
  | 8 => (moveable_feasts year).pentecost + 1
  | 9 => (moveable_feasts year).advent_1
  | 10 => mkDate year 12 25
  | _ => mkDate year 12 31 + 1

/-- Ordering of the eleven anchors: each season starts strictly after the
    previous one (a consequence of Easter's [Mar 22, Apr 25] window and
    Advent-1's [Nov 27, Dec 3] window). -/
theorem mf_anchors (y : Nat) :
    mkDate y 1 1 + 5 = mkDate y 1 6 ∧
    mkDate y 1 6 < (moveable_feasts y).septuagesima ∧
    (moveable_feasts y).septuagesima < (moveable_feasts y).ash_wednesday ∧
    (moveable_feasts y).ash_wednesday < (moveable_feasts y).passion_sunday ∧
    (moveable_feasts y).passion_sunday < (moveable_feasts y).palm_sunday ∧
    (moveable_feasts y).palm_sunday < (moveable_feasts y).easter ∧
    (moveable_feasts y).easter < (moveable_feasts y).ascension ∧
    (moveable_feasts y).ascension < (moveable_feasts y).pentecost ∧
    (moveable_feasts y).pentecost < (moveable_feasts y).advent_1 ∧
    (moveable_feasts y).advent_1 < mkDate y 12 25 ∧
    mkDate y 12 25 ≤ mkDate y 12 31 := by
  have hb := easter_bounds y
  rw [mf_fields]
  dsimp only
  simp only [mkDate, daysBeforeMonth, numDaysFromSunday]
  generalize hLB : (if isLeap y = true then (1 : Nat) else 0) = LB
  have hLB1 : LB ≤ 1 := by subst hLB; split <;> omega
  refine ⟨trivial, by omega, by omega, by omega, by omega, by omega, by omega,
    by omega, ?_, ?_, by omega⟩ <;>
    · split <;> omega

theorem seasonBound_le_succ (y : Nat) : ∀ k, seasonBound y k ≤ seasonBound y (k + 1) := by
  have ha := mf_anchors y
  intro k
  rcases k with _|_|_|_|_|_|_|_|_|_|_|k <;>
    first
    | (dsimp only [seasonBound]; omega)
    | exact Nat.le_refl _

theorem seasonBound_mono (y : Nat) : Monotone (seasonBound y) :=
  monotone_nat_of_le_succ (seasonBound_le_succ y)

/-- Every matching interval test is characterised by the bound pair. -/
theorem seasonInterval_bounds (y d : Nat) (h1 : mkDate y 1 1 ≤ d)
    (h2 : d ≤ mkDate y 12 31) :
    ∀ i, seasonInterval y i d →
      seasonBound y i ≤ d ∧ d < seasonBound y (i + 1) ∧ i ≤ 10 := by
  intro i hi
  rcases i with _|_|_|_|_|_|_|_|_|_|_|i <;>
    dsimp only [seasonInterval] at hi <;>
    dsimp only [seasonBound] <;>
    first
    | omega
    | exact absurd hi (by simp)

/-- Exhaustiveness: every date of the civil year matches some interval test. -/
theorem seasonInterval_exists (y d : Nat) (h1 : mkDate y 1 1 ≤ d)
    (h2 : d ≤ mkDate y 12 31) : ∃ i, seasonInterval y i d := by
  have ha := mf_anchors y
  have hcase : d < mkDate y 1 6 ∨
      (mkDate y 1 6 ≤ d ∧ d < (moveable_feasts y).septuagesima) ∨
      ((moveable_feasts y).septuagesima ≤ d ∧ d < (moveable_feasts y).ash_wednesday) ∨
      ((moveable_feasts y).ash_wednesday ≤ d ∧ d < (moveable_feasts y).passion_sunday) ∨
      ((moveable_feasts y).passion_sunday ≤ d ∧ d < (moveable_feasts y).palm_sunday) ∨
      ((moveable_feasts y).palm_sunday ≤ d ∧ d < (moveable_feasts y).easter) ∨
      ((moveable_feasts y).easter ≤ d ∧ d < (moveable_feasts y).ascension) ∨
      ((moveable_feasts y).ascension ≤ d ∧ d ≤ (moveable_feasts y).pentecost) ∨
      ((moveable_feasts y).pentecost < d ∧ d < (moveable_feasts y).advent_1) ∨
      ((moveable_feasts y).advent_1 ≤ d ∧ d < mkDate y 12 25) ∨
      mkDate y 12 25 ≤ d := by omega
  rcases hcase with h|h|h|h|h|h|h|h|h|h|h
  exacts [⟨0, h⟩, ⟨1, h⟩, ⟨2, h⟩, ⟨3, h⟩, ⟨4, h⟩, ⟨5, h⟩, ⟨6, h⟩, ⟨7, h⟩,
    ⟨8, h⟩, ⟨9, h⟩, ⟨10, h⟩]

/-- Mutual exclusivity: a date matches at most one interval test. -/
theorem seasonInterval_unique (y d : Nat) (h1 : mkDate y 1 1 ≤ d)
    (h2 : d ≤ mkDate y 12 31) (i j : Nat) (hi : seasonInterval y i d)
    (hj : seasonInterval y j d) : i = j := by
  have hbi := seasonInterval_bounds y d h1 h2 i hi
  have hbj := seasonInterval_bounds y d h1 h2 j hj
  rcases Nat.lt_trichotomy i j with hlt | heq | hlt
  · have := seasonBound_mono y (show i + 1 ≤ j from hlt)
    omega
  · exact heq
  · have := seasonBound_mono y (show j + 1 ≤ i from hlt)
    omega

/-- The season `classify_date` assigns is the season of the (unique) matching
    interval test. -/
theorem classify_date_season (year d : Nat)
    (h1 : mkDate year 1 1 ≤ d) (h2 : d ≤ mkDate year 12 31)
    (i : Nat) (hi : seasonInterval year i d) :
    (classify_date d year (moveable_feasts year) (moveable_feasts (year - 1))).1.season =
      seasonOfInterval i := by
  obtain ⟨ha1, ha2, ha3, ha4, ha5, ha6, ha7, ha8, ha9, ha10, ha11⟩ := mf_anchors year
  simp only [classify_date]
  rcases i with _|_|_|_|_|_|_|_|_|_|_|i <;> dsimp only [seasonInterval] at hi
  · rw [if_pos hi]; rfl
  · iterate 1 rw [if_neg (by omega)]
    rw [if_pos hi]; rfl
  · iterate 2 rw [if_neg (by omega)]
    rw [if_pos hi]; rfl
  · iterate 3 rw [if_neg (by omega)]
    rw [if_pos hi]
    split <;> rfl
  · iterate 4 rw [if_neg (by omega)]
    rw [if_pos hi]; rfl
  · iterate 5 rw [if_neg (by omega)]
    rw [if_pos hi]; rfl
  · iterate 6 rw [if_neg (by omega)]
    rw [if_pos hi]; rfl
  · iterate 7 rw [if_neg (by omega)]
    rw [if_pos hi]; rfl
  · iterate 8 rw [if_neg (by omega)]
    rw [if_pos hi]; rfl
  · iterate 9 rw [if_neg (by omega)]
    rw [if_pos hi]; rfl
  · iterate 10 rw [if_neg (by omega)]
    rfl
  · exact hi.elim

/-- C3: `build_temporal_cycle(year)` has exactly one entry for every civil date
    from Jan 1 through Dec 31 (and none besides), its size matches the
    Gregorian leap rule (366 in leap years, else 365), and the season-interval
    tests of `classify_date` are exhaustive and mutually exclusive over the
    year: every date matches exactly one of the eleven interval tests (the nine
    seasons plus the two Christmas end segments), and `classify_date` assigns
    precisely that interval's season. -/
theorem temporal_cycle_partition (year : Nat) (hy : 1 ≤ year) :
    ((build_temporal_cycle year).map Prod.fst =
      dateRange (mkDate year 1 1) (mkDate year 12 31)) ∧
    (∀ d, d ∈ (build_temporal_cycle year).map Prod.fst ↔
      mkDate year 1 1 ≤ d ∧ d ≤ mkDate year 12 31) ∧
    ((build_temporal_cycle year).map Prod.fst).Nodup ∧
    ((build_temporal_cycle year).length = if isLeap year then 366 else 365) ∧
    (∀ d, mkDate year 1 1 ≤ d → d ≤ mkDate year 12 31 →
      (∃! i, seasonInterval year i d) ∧
      (∀ i, seasonInterval year i d →
        (classify_date d year (moveable_feasts year)
          (moveable_feasts (year - 1))).1.season = seasonOfInterval i)) := by
  have hkeys : (build_temporal_cycle year).map Prod.fst =
      dateRange (mkDate year 1 1) (mkDate year 12 31) := by
    simp only [build_temporal_cycle, List.map_map, Function.comp_def]
    exact List.map_id _
  refine ⟨hkeys, ?_, ?_, ?_, ?_⟩
  · intro d
    rw [hkeys]
    exact mem_dateRange
  · rw [hkeys]
    exact nodup_dateRange _ _
  · have hlen : (build_temporal_cycle year).length =
        mkDate year 12 31 + 1 - mkDate year 1 1 := by
      simp [build_temporal_cycle, length_dateRange]
    rw [hlen]
    simp only [mkDate, daysBeforeMonth]
    by_cases hL : isLeap year = true <;> simp [hL] <;> omega
  · intro d hd1 hd2
    refine ⟨?_, fun i hi => classify_date_season year d hd1 hd2 i hi⟩
    obtain ⟨i, hi⟩ := seasonInterval_exists year d hd1 hd2
    exact ⟨i, hi, fun j hj => seasonInterval_unique year d hd1 hd2 j i hj hi⟩

/-- Witness for C3 at year 2026. -/
theorem temporal_cycle_partition_witness :
    (1 ≤ 2026) ∧ (build_temporal_cycle 2026).length = (if isLeap 2026 then 366 else 365) :=
  ⟨by decide, (temporal_cycle_partition 2026 (by decide)).2.2.2.1⟩

/-! ## C9: Sunday winners -/

/-- Every sanctoral celebration has precedence ≤ 5 or ≥ 7 (the static table
    uses 1, 4, 5, 7, 9; Holy Name has 5 and Holy Family 4). -/
theorem sanctoral_precedence (year : Nat) :
    ∀ p ∈ build_sanctoral_cycle year,
      p.2.precedence ≤ 5 ∨ 7 ≤ p.2.precedence := by
  intro p hp
  simp only [build_sanctoral_cycle] at hp
  simp only [List.mem_append, List.mem_filterMap, List.mem_singleton] at hp
  rcases hp with (⟨f, hf, hmap⟩ | hp) | hp
  · rcases Option.map_eq_some'.1 hmap with ⟨dt, _, hpd⟩
    have hfix : ∀ f ∈ major_feasts,
        f.celebration.precedence ≤ 5 ∨ 7 ≤ f.celebration.precedence := by decide
    rw [← hpd]
    exact hfix f hf
  · rw [hp]; left; exact Nat.le_refl _
  · rcases hite : (if yearOf (holyFamilyDate year) = year then
        [(holyFamilyDate year, Celebration.new "holy-family" "Sanctae Familiae"
          "The Holy Family" .ClassI .FeastOfLord .White 4)] else []) with _ | ⟨q, tl⟩
    · rw [hite] at hp; cases hp
    · rw [hite] at hp
      have hq : q = (holyFamilyDate year, Celebration.new "holy-family"
          "Sanctae Familiae" "The Holy Family" .ClassI .FeastOfLord .White 4) ∧
          tl = [] := by
        by_cases hg : yearOf (holyFamilyDate year) = year
        · rw [if_pos hg] at hite; cases hite; exact ⟨rfl, rfl⟩
        · rw [if_neg hg] at hite; cases hite
      rcases List.mem_cons.1 hp with rfl | hmem
      · rw [hq.1]; left; dsimp only [Celebration.new]; omega
      · rw [hq.2] at hmem; cases hmem

/-- A member of a date's sanctoral `Vec` is a value of the sanctoral cycle. -/
theorem sanctoralLookup_mem (entries : List (Nat × Celebration)) (d : Nat)
    (c : Celebration) (hc : c ∈ sanctoralLookup entries d) :
    ∃ p ∈ entries, p.2 = c := by
  simp only [sanctoralLookup, List.mem_map, List.mem_filter] at hc
  rcases hc with ⟨p, ⟨hmem, _⟩, hp2⟩
  exact ⟨p, hmem, hp2⟩

/-- `Celebration::sunday` always carries category `Sunday` and precedence ≤ 6. -/
theorem celebration_sunday_prop (season : LiturgicalSeason) (week : Nat) :
    (Celebration.sunday season week).category = CelebrationCategory.Sunday ∧
      (Celebration.sunday season week).precedence ≤ 6 := by
  refine ⟨rfl, ?_⟩
  cases season <;> simp only [Celebration.sunday] <;> (try split_ifs) <;> simp

set_option maxHeartbeats 4000000 in
/-- Case analysis of `classify_special`: every special celebration either has
    precedence ≤ 4, or carries category `Sunday` with precedence ≤ 6, or is an
    Ember day (precedence 8) or a Rogation day (precedence 11) — and in the
    latter two cases the date belongs to the corresponding date list. -/
theorem classify_special_cases (d y : Nat) (mf : MoveableFeasts) (c : Celebration)
    (h : classify_special d y mf = some c) :
    c.precedence ≤ 4 ∨
    (c.category = CelebrationCategory.Sunday ∧ c.precedence ≤ 6) ∨
    (d ∈ mf.ember_days ∧ c.precedence = 8) ∨
    (d ∈ mf.rogation_days ∧ c.precedence = 11) := by
  unfold classify_special at h
  by_cases hc1 : d = mf.easter
  · rw [if_pos hc1] at h; cases h; left; dsimp only [Celebration.new]; omega
  rw [if_neg hc1] at h
  by_cases hc2 : mf.easter < d ∧ d < mf.easter + 7
  · rw [if_pos hc2] at h; cases h; left; dsimp only [Celebration.new]; omega
  rw [if_neg hc2] at h
  by_cases hc3 : d = mf.easter + 7
  · rw [if_pos hc3] at h; cases h; left; dsimp only [Celebration.new]; omega
  rw [if_neg hc3] at h
  by_cases hc4 : d = mf.ash_wednesday
  · rw [if_pos hc4] at h; cases h; left; dsimp only [Celebration.new]; omega
  rw [if_neg hc4] at h
  by_cases hc5 : d = mf.palm_sunday
  · rw [if_pos hc5] at h; cases h; left; dsimp only [Celebration.new]; omega
  rw [if_neg hc5] at h
  by_cases hc6 : d = mf.holy_thursday
  · rw [if_pos hc6] at h; cases h; left; dsimp only [Celebration.new]; omega
  rw [if_neg hc6] at h
  by_cases hc7 : d = mf.good_friday
  · rw [if_pos hc7] at h; cases h; left; dsimp only [Celebration.new]; omega
  rw [if_neg hc7] at h
  by_cases hc8 : d = mf.holy_saturday
  · rw [if_pos hc8] at h; cases h; left; dsimp only [Celebration.new]; omega
  rw [if_neg hc8] at h
  by_cases hc9 : d = mf.ascension
  · rw [if_pos hc9] at h; cases h; left; dsimp only [Celebration.new]; omega
  rw [if_neg hc9] at h
  by_cases hc10 : d = mf.pentecost
  · rw [if_pos hc10] at h; cases h; left; dsimp only [Celebration.new]; omega
  rw [if_neg hc10] at h
  by_cases hc11 : mf.pentecost < d ∧ d < mf.pentecost + 7
  · rw [if_pos hc11] at h; cases h; left; dsimp only [Celebration.new]; omega
  rw [if_neg hc11] at h
  by_cases hc12 : d = mf.corpus_christi
  · rw [if_pos hc12] at h; cases h; left; dsimp only [Celebration.new]; omega
  rw [if_neg hc12] at h
  by_cases hc13 : d = mf.sacred_heart
  · rw [if_pos hc13] at h; cases h; left; dsimp only [Celebration.new]; omega
  rw [if_neg hc13] at h
  by_cases hc14 : d = mf.christ_the_king
  · rw [if_pos hc14] at h; cases h; left; dsimp only [Celebration.new]; omega
  rw [if_neg hc14] at h
  by_cases hc15 : d ∈ mf.ember_days
  · rw [if_pos hc15] at h; cases h; right; right; left; exact ⟨hc15, rfl⟩
  rw [if_neg hc15] at h
  by_cases hc16 : d ∈ mf.rogation_days
  · rw [if_pos hc16] at h; cases h; right; right; right; exact ⟨hc16, rfl⟩
  rw [if_neg hc16] at h
  by_cases hc17 : numDaysFromSunday d = 0 ∧ mf.pentecost + 7 ≤ d ∧ d < mf.advent_1 ∧ mf.advent_1 ≤ d + 7
  · rw [if_pos hc17] at h; cases h; left; dsimp only [Celebration.new]; omega
  rw [if_neg hc17] at h
  by_cases hc18 : d = mf.septuagesima
  · rw [if_pos hc18] at h; cases h; right; left; exact ⟨(celebration_sunday_prop _ _).1, (celebration_sunday_prop _ _).2⟩
  rw [if_neg hc18] at h
  by_cases hc19 : d = mf.septuagesima + 7
  · rw [if_pos hc19] at h; cases h; right; left; exact ⟨(celebration_sunday_prop _ _).1, (celebration_sunday_prop _ _).2⟩
  rw [if_neg hc19] at h
  by_cases hc20 : d = mf.septuagesima + 14
  · rw [if_pos hc20] at h; cases h; right; left; exact ⟨(celebration_sunday_prop _ _).1, (celebration_sunday_prop _ _).2⟩
  rw [if_neg hc20] at h
  by_cases hc21 : d = mf.passion_sunday
  · rw [if_pos hc21] at h; cases h; right; left; exact ⟨(celebration_sunday_prop _ _).1, (celebration_sunday_prop _ _).2⟩
  rw [if_neg hc21] at h
  cases h

/-- Ember days never fall on a Sunday: each triad sits at +3, +5 or +6 days
    from a Sunday (the first Sunday of Lent, Pentecost, the third September
    Sunday, or Gaudete Sunday). -/
theorem ember_not_sunday (y : Nat) (hy : 1 ≤ y) (d : Nat)
    (hd : d ∈ (moveable_feasts y).ember_days) : numDaysFromSunday d ≠ 0 := by
  have hsun := easter_is_sunday y hy
  have hb := easter_bounds y
  have h91 : daysBeforeYear y + 243 ≤ mkDate y 9 1 ∧
      mkDate y 9 1 ≤ daysBeforeYear y + 244 := by
    constructor <;> (simp only [mkDate, daysBeforeMonth]; split <;> omega)
  have h1130 : daysBeforeYear y + 333 ≤ mkDate y 11 30 ∧
      mkDate y 11 30 ≤ daysBeforeYear y + 334 := by
    constructor <;> (simp only [mkDate, daysBeforeMonth]; split <;> omega)
  rw [mf_fields] at hd
  dsimp only at hd
  simp only [numDaysFromSunday] at hsun hd ⊢
  by_cases hA : (mkDate y 11 30 + 1) % 7 ≤ 3 <;>
    [rw [if_pos hA] at hd; rw [if_neg hA] at hd] <;>
    simp only [List.mem_cons, List.not_mem_nil, or_false] at hd <;>
    rcases hd with rfl|rfl|rfl|rfl|rfl|rfl|rfl|rfl|rfl|rfl|rfl|rfl <;>
    omega

/-- Rogation days never fall on a Sunday: they are Easter +36, +37, +38. -/
theorem rogation_not_sunday (y : Nat) (hy : 1 ≤ y) (d : Nat)
    (hd : d ∈ (moveable_feasts y).rogation_days) : numDaysFromSunday d ≠ 0 := by
  have hsun := easter_is_sunday y hy
  have hb := easter_bounds y
  rw [mf_fields] at hd
  dsimp only at hd
  simp only [numDaysFromSunday] at hsun hd ⊢
  simp only [List.mem_cons, List.not_mem_nil, or_false] at hd
  rcases hd with rfl|rfl|rfl <;> omega

/-- On a Sunday, once the temporal celebration is known to carry category
    `Sunday` or a low precedence (and never precedence 6 exceeded), the
    resolved winner keeps the claimed property: a sanctoral winner must have
    precedence at most the temporal's (≤ 6), and sanctoral precedences skip 6,
    so it is ≤ 5. -/
theorem winner_on_sunday_aux (tc : Celebration) (entries : List (Nat × Celebration))
    (d : Nat)
    (hS : ∀ p ∈ entries, p.2.precedence ≤ 5 ∨ 7 ≤ p.2.precedence)
    (hT1 : tc.category = CelebrationCategory.Sunday ∨ tc.precedence ≤ 5)
    (hT2 : tc.precedence ≤ 6) :
    (resolve_precedence tc (sanctoralLookup entries d)).1.category =
        CelebrationCategory.Sunday ∨
      (resolve_precedence tc (sanctoralLookup entries d)).1.precedence ≤ 5 := by
  obtain ⟨hmem, hmin⟩ := resolve_winner_min tc (sanctoralLookup entries d)
  rcases List.mem_cons.1 hmem with heq | hmem2
  · rw [heq]; exact hT1
  · right
    obtain ⟨pp, hpp, hpc⟩ := sanctoralLookup_mem entries d _ hmem2
    have hprec : (resolve_precedence tc (sanctoralLookup entries d)).1.precedence ≤ 5 ∨
        7 ≤ (resolve_precedence tc (sanctoralLookup entries d)).1.precedence := by
      rw [← hpc]; exact hS pp hpp
    have hle := hmin tc (by simp)
    simp only [cmpLe, Bool.or_eq_true, Bool.and_eq_true, Nat.blt_eq, Nat.ble_eq,
      beq_iff_eq] at hle
    omega

/-- C9: for every year and every date of `Calendar::new(year)` whose weekday is
    Sunday, the winning celebration either has category `Sunday` or has
    precedence number at most 5. -/
theorem sunday_winner (year : Nat) (hy : 1 ≤ year) :
    ∀ p ∈ (Calendar.new year).days, numDaysFromSunday p.1 = 0 →
      p.2.celebration.category = CelebrationCategory.Sunday ∨
        p.2.celebration.precedence ≤ 5 := by
  intro p hp hsun
  simp only [Calendar.new] at hp
  obtain ⟨q, hq, rfl⟩ := List.mem_map.1 hp
  simp only at hsun
  simp only [build_temporal_cycle] at hq
  obtain ⟨d, hd, rfl⟩ := List.mem_map.1 hq
  simp only at hsun ⊢
  simp only [buildDay]
  have hC2 : (classify_date d year (moveable_feasts year)
      (moveable_feasts (year - 1))).2 = classify_special d year (moveable_feasts year) :=
    rfl
  rw [hC2]
  rcases hcs : classify_special d year (moveable_feasts year) with _ | sc
  · dsimp only
    rw [if_pos hsun]
    exact winner_on_sunday_aux _ _ _ (sanctoral_precedence year)
      (Or.inl (celebration_sunday_prop _ _).1) (celebration_sunday_prop _ _).2
  · dsimp only
    rcases classify_special_cases d year (moveable_feasts year) sc hcs with
      hA | hB | hC | hD
    · exact winner_on_sunday_aux _ _ _ (sanctoral_precedence year)
        (Or.inr (by omega)) (by omega)
    · exact winner_on_sunday_aux _ _ _ (sanctoral_precedence year)
        (Or.inl hB.1) hB.2
    · exact absurd hsun (ember_not_sunday year hy d hC.1)
    · exact absurd hsun (rogation_not_sunday year hy d hD.1)

/-- Witness for C9 at year 2026. -/
theorem sunday_winner_witness :
    (1 ≤ 2026) ∧ ∀ p ∈ (Calendar.new 2026).days, numDaysFromSunday p.1 = 0 →
      p.2.celebration.category = CelebrationCategory.Sunday ∨
        p.2.celebration.precedence ≤ 5 :=
  ⟨by decide, sunday_winner 2026 (by decide)⟩

end LitCal
